import Mathlib

/-!
Verification of the GNS3 topology-converter core (gns3converter/converter.py):
section classification, device naming and typing, node/port synthesis and link
finalisation.  The functions below are shallow embeddings of the Python source;
the port catalogue (gns3converter/ports.py, which the staged sources import but
do not contain) is modelled from the specification and marked as such.

Conventions of the embedding:
* Python strings are Lean `String`s; the helpers `pySplit`, `pyReplace`,
  `strLe`, `sortBy`, `dictSet`, `alookup` model `str.split`, `str.replace`,
  code-point comparison, `sorted()` (a stable comparison sort) and `dict`
  assignment/lookup, all written with structural recursion so that concrete
  runs reduce inside the kernel.
* Fallible Python code (KeyError, IndexError, ValueError, TypeError,
  AttributeError) is modelled with `Option`: `none` is an uncaught exception
  aborting the run.
* Dictionaries whose keys the code iterates with `sorted()` are association
  lists; insertion order is irrelevant because every iteration sorts.
-/

namespace Gns3

/-- Lexicographic code-point comparison of character lists (Python `<=` on
strings restricted to what `sorted` needs). -/
def charListLe : List Char → List Char → Bool
  | [], _ => true
  | _ :: _, [] => false
  | a :: as, b :: bs => if a = b then charListLe as bs else decide (a.toNat < b.toNat)

/-- Python string comparison by code point, as used by `sorted()`. -/
def strLe (s t : String) : Bool := charListLe s.data t.data

/-- Insert into a sorted list, keeping earlier elements first on ties
(stability of Python `sorted`). -/
def insertBy (le : α → α → Bool) (x : α) : List α → List α
  | [] => [x]
  | y :: ys => if le x y then x :: y :: ys else y :: insertBy le x ys

/-- Insertion sort modelling Python `sorted`. -/
def sortBy (le : α → α → Bool) : List α → List α
  | [] => []
  | x :: xs => insertBy le x (sortBy le xs)

/-- Sort an association list by key, modelling `sorted(dict)` iteration. -/
def sortPairs (l : List (String × α)) : List (String × α) :=
  sortBy (fun a b => strLe a.1 b.1) l

/-- Lookup in an association list (Python `dict[k]` read, as `Option`). -/
def alookup (k : String) : List (String × α) → Option α
  | [] => none
  | (k0, v0) :: rest => if k0 = k then some v0 else alookup k rest

/-- Python `dict[k] = v`: replace the entry if present, append otherwise. -/
def dictSet (k : String) (v : α) : List (String × α) → List (String × α)
  | [] => [(k, v)]
  | (k0, v0) :: rest => if k0 = k then (k, v) :: rest else (k0, v0) :: dictSet k v rest

/-- Python `s.split(sep)` for a one-character separator: splits on every
occurrence and keeps empty fields, so the result is never empty. -/
def pySplitAux (sep : Char) : List Char → List Char → List String
  | [], acc => [String.mk acc.reverse]
  | c :: cs, acc =>
    if c = sep then String.mk acc.reverse :: pySplitAux sep cs []
    else pySplitAux sep cs (c :: acc)

/-- Python `s.split(sep)` (one-character separator). -/
def pySplit (sep : Char) (s : String) : List String := pySplitAux sep s.data []

/-- Replacement engine for `pyReplace`: scans left to right, replacing each
non-overlapping occurrence of `pat`.  The fuel is an upper bound on the number
of scan steps; callers pass `length + 1`, which always suffices. -/
def pyReplaceAux (pat repl : List Char) : Nat → List Char → List Char
  | 0, xs => xs
  | _ + 1, [] => []
  | fuel + 1, x :: xs =>
    if pat.isPrefixOf (x :: xs) then
      repl ++ pyReplaceAux pat repl fuel ((x :: xs).drop pat.length)
    else
      x :: pyReplaceAux pat repl fuel xs

/-- Python `s.replace(pat, repl)`: every non-overlapping occurrence, scanned
left to right.  The converter never calls `replace` with an empty pattern, so
that case is passed through unchanged. -/
def pyReplace (s pat repl : String) : String :=
  if pat.data.isEmpty then s
  else String.mk (pyReplaceAux pat.data repl.data (s.data.length + 1) s.data)

/-- Python `s.startswith(p)`. -/
def strStartsWith (s p : String) : Bool := p.data.isPrefixOf s.data

/-- ASCII upper-casing of one character (Python `str.upper` on the short
interface codes, which are ASCII). -/
def charUpper (c : Char) : Char :=
  if 97 ≤ c.toNat ∧ c.toNat ≤ 122 then Char.ofNat (c.toNat - 32) else c

/-- ASCII lower-casing of one character, for case-insensitive regex matching. -/
def charLower (c : Char) : Char :=
  if 65 ≤ c.toNat ∧ c.toNat ≤ 90 then Char.ofNat (c.toNat + 32) else c

/-- ASCII upper-casing of a string (Python `str.upper` on model names). -/
def strUpper (s : String) : String := String.mk (s.data.map charUpper)

/-- Numeric value of a digit string. -/
def digitsVal (l : List Char) : Nat := l.foldl (fun acc c => acc * 10 + (c.toNat - 48)) 0

/-- Python `int(s)` for the non-negative literals the converter feeds it
(switch port numbers and VLAN ids): all-digit strings; anything else raises. -/
def pyIntNat (s : String) : Option Nat :=
  if !s.data.isEmpty && s.data.all Char.isDigit then some (digitsVal s.data) else none

/-- Python `os.path.basename` for the POSIX separator. -/
def basename (s : String) : String := (pySplit '/' s).getLastD s

/-- Match a pattern prefix case-insensitively, returning the unmatched rest. -/
def charsMatchCI : List Char → List Char → Option (List Char)
  | [], rest => some rest
  | _ :: _, [] => none
  | p :: ps, c :: cs => if charLower p = charLower c then charsMatchCI ps cs else none

/-- After an interface prefix the regex requires digits, a slash and at least
one more digit (`([0-9]+)/([0-9]+)`; trailing text is allowed by `search`). -/
def ifaceTail (l : List Char) : Bool :=
  match l with
  | [] => false
  | c :: _ =>
    c.isDigit &&
      (match l.dropWhile Char.isDigit with
       | '/' :: d :: _ => d.isDigit
       | _ => false)

/-- Alternatives of `interface_re`.  The triple-quoted pattern in the source
contains a literal newline, so one alternative really is the text
IDS-Sensor followed by a newline. -/
def ifaceAlternatives : List String :=
  ["g", "gi", "f", "fa", "a", "at", "s", "se", "e", "et", "p", "po", "i", "id",
   "IDS-Sensor\n", "an", "Analysis-Module"]

/-- Boolean result of `interface_re.search(s)`: some alternative matches at the
start of `s` (case-insensitively) and is followed by digits, a slash and
digits. -/
def interfaceMatch (s : String) : Bool :=
  ifaceAlternatives.any (fun p =>
    match charsMatchCI p.data s.data with
    | some rest => ifaceTail rest
    | none => false)

/-- Boolean result of `ethswint_re.search(s)` (pattern `^([0-9]+)`): the string
starts with a digit. -/
def ethswintMatch (s : String) : Bool :=
  match s.data with
  | c :: _ => c.isDigit
  | [] => false

/-- Modelled from the spec: the Port Catalog's short-name → long-name table for
interface prefixes (`PORT_TYPES` of the missing gns3converter/ports.py).  The
spec names the FE and GE families and scenario 1 fixes f ↦ FastEthernet; the
one-letter codes of the remaining families follow the same naming scheme.
Keys the spec does not determine are absent (a miss is Python's KeyError). -/
def PORT_TYPES (short : String) : Option String :=
  if short = "FE" ∨ short = "F" then some "FastEthernet"
  else if short = "GE" ∨ short = "G" then some "GigabitEthernet"
  else if short = "E" then some "Ethernet"
  else if short = "S" then some "Serial"
  else if short = "A" then some "ATM"
  else if short = "P" then some "POS"
  else none

/-- Modelled from the spec: model → chassis → (motherboard port count, type
code) (`MODEL_MATRIX` of the missing ports.py).  The spec's default-port rule
implies the c7200 has zero motherboard ports, and the 3660's onboard ports
arrive only through the synthesized Leopard-2FE slot-0 adapter, so the c3600
chassis entries carry zero as well.  Entries the spec does not determine are
absent (a miss is Python's KeyError, fatal per the spec's error taxonomy). -/
def MODEL_MATRIX (model chassis : String) : Option (Nat × String) :=
  if model = "c7200" ∧ chassis = "" then some (0, "")
  else if model = "c3600" ∧ (chassis = "3620" ∨ chassis = "3640" ∨ chassis = "3660") then
    some (0, "")
  else none

/-- Modelled from the spec: adapter name → (port count, type code)
(`ADAPTER_MATRIX` of the missing ports.py).  The three adapters the spec names:
C7200-IO-2FE (two FE ports), C7200-IO-GE-E (one GE port), Leopard-2FE (two FE
ports). -/
def ADAPTER_MATRIX (adapter : String) : Option (Nat × String) :=
  if adapter = "C7200-IO-2FE" then some (2, "FE")
  else if adapter = "C7200-IO-GE-E" then some (1, "GE")
  else if adapter = "Leopard-2FE" then some (2, "FE")
  else none

/-- Value of a legacy property: the classifier stores strings from the
topology file and the integers it assigns itself (node id, hypervisor id). -/
inductive PVal where
  | s (v : String)
  | n (v : Nat)
deriving DecidableEq

/-- One port record.  Python builds ports as dicts with per-kind key sets;
optional fields unify the motherboard/slot, switch and cloud-stub shapes.
`slot_number` is the string the name was formatted from ("0" for the integer
zero of motherboard and default-adapter ports). -/
structure Port where
  name : String
  id : Nat
  port_number : Option Nat := none
  slot_number : Option String := none
  typ : Option String := none
  vlan : Option Nat := none
  stub : Bool := false
  link_id : Option Nat := none
deriving DecidableEq

/-- One node record.  `name` mirrors `properties['name']`, and `nios` mirrors
`properties['nios']`, kept as fields because `PVal` covers only scalars; the
remaining property bag is `properties`. -/
structure Node where
  id : Nat
  name : String
  typ : String
  description : String
  router_id : Option Nat := none
  x : PVal
  y : PVal
  ports : List Port := []
  properties : List (String × PVal) := []
  nios : List String := []
deriving DecidableEq

/-- A symbolic link as built by `calc_link`: resolved source, textual
destination. -/
structure SymLink where
  source_node_id : Nat
  source_port_id : Nat
  dest_dev : String
  dest_port : String
deriving DecidableEq

/-- A finalized link.  Destination ids are `none` when resolution failed
(Python `None`); `id` is assigned during deduplication. -/
structure Link where
  source_node_id : Nat
  source_port_id : Nat
  destination_node_id : Option Nat
  destination_port_id : Option Nat
  id : Option Nat := none
deriving DecidableEq

/-- A destination reference as produced by the split helpers. -/
structure Dest where
  device : String
  port : String
deriving DecidableEq

/-- One hypervisor-configuration block (the converter reads these five keys;
all but the model are optional in the legacy file). -/
structure Hypervisor where
  image : Option String := none
  idlepc : Option String := none
  ram : Option Nat := none
  npe : Option String := none
  chassis : Option String := none
deriving DecidableEq

/-- The converter's run-global mutable state: the port-id counter (initialised
to 1), the accumulated symbolic links and the config-rename pairs. -/
structure ConvSt where
  port_id : Nat
  links : List SymLink
  configs : List (PVal × String)
deriving DecidableEq

/-- Python `item[0:item.index(':')]`: the text before the first colon. -/
def ipStem (item : String) : String :=
  String.mk (item.data.takeWhile (fun c => decide (c ≠ ':')))

/-- Converter.get_instances: keep the sorted section names that contain a colon
whose prefix (up to the first colon) is a valid IP address literal.  The
stdlib `ip_address` validator is an external collaborator and is passed in as
the predicate `isip` (a failed parse is the caught ValueError). -/
def get_instances (isip : String → Bool) (config : List String) : List String :=
  (sortBy strLe config).filter (fun item =>
    if item.data.contains ':' then isip (ipStem item) else false)

/-- Device-type record of Converter.device_typename (`from`, `desc`, `type`). -/
structure DevType where
  fromName : String
  desc : String
  typ : String
deriving DecidableEq

/-- Converter.device_typename: first matching name prefix fixes the type; the
display name is the key with every occurrence of the prefix-plus-space removed
(Python `str.replace`).  No matching prefix is a fatal TypeError. -/
def device_typename (item : String) : Option (String × DevType) :=
  let dt : Option DevType :=
    if strStartsWith item "ROUTER" then some ⟨"ROUTER", "Router", "Router"⟩
    else if strStartsWith item "QEMU" then some ⟨"QEMU", "QEMU", "QEMU"⟩
    else if strStartsWith item "VBOX" then some ⟨"VBOX", "VBOX", "VBOX"⟩
    else if strStartsWith item "FRSW" then some ⟨"FRSW", "Frame Relay switch", "FrameRelaySwitch"⟩
    else if strStartsWith item "ETHSW" then some ⟨"ETHSW", "Ethernet switch", "EthernetSwitch"⟩
    else if strStartsWith item "Hub" then some ⟨"Hub", "Ethernet hub", "EthernetHub"⟩
    else if strStartsWith item "ATMSW" then some ⟨"ATMSW", "ATM switch", "ATMSwitch"⟩
    else if strStartsWith item "ATMBR" then some ⟨"ATMBR", "ATMBR", "ATMBR"⟩
    else if strStartsWith item "Cloud" then some ⟨"Cloud", "Cloud", "Cloud"⟩
    else none
  match dt with
  | none => none
  | some d => some (pyReplace item (d.fromName ++ " ") "", d)

/-- One motherboard port (loop body of Converter.calc_mb_ports). -/
def mbPort (long : String) (pid i : Nat) : Port :=
  { name := long ++ "0/" ++ Nat.repr i, id := pid + i,
    port_number := some i, slot_number := some "0" }

/-- Converter.calc_mb_ports: motherboard ports from the model/chassis table;
zero ports yield an empty list without touching the type code. -/
def calc_mb_ports (model device_chassis : String) (pid : Nat) : Option (List Port × Nat) :=
  match MODEL_MATRIX model device_chassis with
  | none => none
  | some (num_ports, port_type) =>
    if num_ports > 0 then
      match PORT_TYPES port_type with
      | none => none
      | some long => some ((List.range num_ports).map (mbPort long pid), pid + num_ports)
    else some ([], pid)

/-- One adapter-card port (loop body of Converter.calc_slot_ports). -/
def slotPort (long slot : String) (pid i : Nat) : Port :=
  { name := long ++ slot ++ "/" ++ Nat.repr i, id := pid + i,
    port_number := some i, slot_number := some slot }

/-- Converter.calc_slot_ports: ports of one adapter card in one slot.  The
slot is the string it is formatted from (Python passes the character
`item[4]` or the integer 0; both format identically). -/
def calc_slot_ports (adapter slot : String) (pid : Nat) : Option (List Port × Nat) :=
  match ADAPTER_MATRIX adapter with
  | none => none
  | some (num_ports, port_type) =>
    if num_ports > 0 then
      match PORT_TYPES port_type with
      | none => none
      | some long => some ((List.range num_ports).map (slotPort long slot pid), pid + num_ports)
    else some ([], pid)

/-- Converter.calc_cloud_connection: split the colon-delimited connection
string; fewer than four fields is Python's IndexError. -/
def calc_cloud_connection (connection : String) (pid : Nat) : Option (Port × String × Nat) :=
  let c := pySplit ':' connection
  if c.length < 4 then none
  else
    let nio := c.getD 2 "" ++ ":" ++ c.getD 3 ""
    some ({ name := nio, id := pid, stub := true }, nio, pid + 1)

/-- Converter.calc_ethsw_port: split the space-delimited port definition; four
fields name a device destination, otherwise the third field is an NIO target.
Fewer than three fields, or a non-numeric port number or VLAN, raises. -/
def calc_ethsw_port (port_num port_def : String) (pid : Nat) : Option (Port × Dest × Nat) :=
  let pd := pySplit ' ' port_def
  if pd.length < 3 then none
  else
    let dest : Dest :=
      if pd.length = 4 then { device := pd.getD 2 "", port := pd.getD 3 "" }
      else { device := "NIO", port := pd.getD 2 "" }
    match pyIntNat port_num, pyIntNat (pd.getD 1 "") with
    | some pn, some vl =>
      some ({ name := port_num, id := pid, port_number := some pn,
              typ := some (pd.getD 0 ""), vlan := some vl }, dest, pid + 1)
    | _, _ => none

/-- Converter.calc_link. -/
def calc_link (src_id src_port : Nat) (destination : Dest) : SymLink :=
  { source_node_id := src_id, source_port_id := src_port,
    dest_dev := destination.device, dest_port := destination.port }

/-- Source-port scan of Converter.calc_router_links: first port whose name
equals the expanded interface name, defaulting silently to 0. -/
def findSrcPort (int_name : String) : List Port → Nat
  | [] => 0
  | p :: ps => if p.name == int_name then p.id else findSrcPort int_name ps

/-- Converter.calc_router_links: expand every occurrence of the first character
of the interface key to that character's long name, scan this node's ports for
the expanded name (0 if absent), and split the destination into device/port or
an NIO target.  An empty key or a catalogue miss raises. -/
def calc_router_links (conn_from conn_to : String) (node_id : Nat) (ports : List Port) :
    Option SymLink :=
  match conn_from.data with
  | [] => none
  | c :: _ =>
    match PORT_TYPES (String.mk [charUpper c]) with
    | none => none
    | some long =>
      let int_name := pyReplace conn_from (String.mk [c]) long
      let src_port := findSrcPort int_name ports
      let dest_temp := pySplit ' ' conn_to
      let conn_to_d : Dest :=
        if dest_temp.length = 2 then { device := dest_temp.getD 0 "", port := dest_temp.getD 1 "" }
        else { device := "NIO", port := dest_temp.getD 0 "" }
      some (calc_link node_id src_port conn_to_d)

/-- Converter.convert_destination_to_id: for a named destination, the first
node with that display name, then the first of its ports with the destination
port name; for the NIO sentinel, only the first Cloud-typed node is searched
(the `break` in the source sits under the type test, not under the match). -/
def convert_destination_to_id (destination_node destination_port : String)
    (nodes : List Node) : Option Nat × Option Nat :=
  if destination_node ≠ "NIO" then
    match nodes.find? (fun n => n.name == destination_node) with
    | some n =>
      match n.ports.find? (fun p => p.name == destination_port) with
      | some p => (some n.id, some p.id)
      | none => (some n.id, none)
    | none => (none, none)
  else
    match nodes.find? (fun n => n.typ == "Cloud") with
    | some n =>
      match n.ports.find? (fun p => p.name == destination_port) with
      | some p => (some n.id, some p.id)
      | none => (none, none)
    | none => (none, none)

/-- Annotate the first port with the given id (source side of
Converter.add_node_connections). -/
def annotateFirst (pid : Nat) (lid : Option Nat) : List Port → List Port
  | [] => []
  | p :: ps => if p.id = pid then { p with link_id := lid } :: ps else p :: annotateFirst pid lid ps

/-- Annotate the first port whose id equals the optional destination port id
(destination side; `None` never equals an integer id). -/
def annotateFirstOpt (pid : Option Nat) (lid : Option Nat) : List Port → List Port
  | [] => []
  | p :: ps =>
    if some p.id = pid then { p with link_id := lid } :: ps else p :: annotateFirstOpt pid lid ps

/-- Converter.add_node_connections: every node is visited; a node matching the
source id gets its source port annotated, otherwise (elif) a node matching the
destination id gets its destination port annotated. -/
def add_node_connections (link : Link) (nodes : List Node) : List Node :=
  nodes.map (fun n =>
    if n.id = link.source_node_id then
      { n with ports := annotateFirst link.source_port_id link.id n.ports }
    else if some n.id = link.destination_node_id then
      { n with ports := annotateFirstOpt link.destination_port_id link.id n.ports }
    else n)

/-- Destination-port expansion of Converter.generate_links: when the text looks
like an interface, every occurrence of its first character is replaced by that
character's long name.  A catalogue miss would be Python's KeyError; it is
passed through unchanged here and never reached by the claims (the modelled
catalogue covers the families the spec names). -/
def expandDestPort (dp : String) : String :=
  if interfaceMatch dp then
    match dp.data with
    | [] => dp
    | c :: _ =>
      match PORT_TYPES (String.mk [charUpper c]) with
      | some long => pyReplace dp (String.mk [c]) long
      | none => dp
  else dp

/-- Destination resolution of one symbolic link (first phase of
Converter.generate_links). -/
def resolveDest (nodes : List Node) (s : SymLink) : Option Nat × Option Nat :=
  convert_destination_to_id s.dest_dev (expandDestPort s.dest_port) nodes

/-- Resolve one symbolic link into an id-less link record. -/
def resolveOne (nodes : List Node) (s : SymLink) : Link :=
  { source_node_id := s.source_node_id, source_port_id := s.source_port_id,
    destination_node_id := (resolveDest nodes s).1,
    destination_port_id := (resolveDest nodes s).2 }

/-- First phase of Converter.generate_links over the accumulated symbolic
links. -/
def resolveLinks (nodes : List Node) (syms : List SymLink) : List Link :=
  syms.map (resolveOne nodes)

/-- Python `str(x)` for the resolved-or-`None` destination ids. -/
def optRepr : Option Nat → String
  | none => "None"
  | some n => Nat.repr n

/-- The `source:port` key string of the deduplication loop. -/
def srcKey (l : Link) : String := Nat.repr l.source_node_id ++ ":" ++ Nat.repr l.source_port_id

/-- The `destination:port` key string of the deduplication loop. -/
def dstKey (l : Link) : String := optRepr l.destination_node_id ++ ":" ++ optRepr l.destination_port_id

/-- Deduplication loop of Converter.generate_links, with Python's exact
iterator semantics: the cursor `i` advances once per iteration whatever was
removed; the inner scan removes the first link whose destination key equals
the current link's source key (list.remove erases exactly that index, since an
earlier structurally-equal dict would have matched the key first); the current
link then receives the next id, staying at `i` when the removal was past it,
shifting to `i - 1` when it was before it, and leaving the list entirely when
it removed the current link itself; the ports of both endpoints are annotated
in every case.  One unit of fuel per iteration: the cursor grows and the list
never does, so `ls.length` iterations always finish the loop. -/
def dedupLoop : Nat → List Link → Nat → Nat → List Node → List Link × List Node
  | 0, ls, _, _, nodes => (ls, nodes)
  | fuel + 1, ls, i, linkId, nodes =>
    match ls.get? i with
    | none => (ls, nodes)
    | some link =>
      let t := srcKey link
      let link2 := { link with id := some linkId }
      match ls.findIdx? (fun l2 => dstKey l2 == t) with
      | none =>
        dedupLoop fuel (ls.set i link2) (i + 1) (linkId + 1) (add_node_connections link2 nodes)
      | some j =>
        if j = i then
          dedupLoop fuel (ls.eraseIdx j) (i + 1) (linkId + 1) (add_node_connections link2 nodes)
        else
          dedupLoop fuel ((ls.eraseIdx j).set (if j < i then i - 1 else i) link2)
            (i + 1) (linkId + 1) (add_node_connections link2 nodes)

/-- Converter.generate_links: resolve every symbolic link, deduplicate and
assign ids, back-annotating ports; returns the final link list and the
updated nodes. -/
def generate_links (nodes : List Node) (syms : List SymLink) : List Link × List Node :=
  let links := resolveLinks nodes syms
  dedupLoop links.length links 0 1 nodes

/-- Accumulators of the property loop of Converter.generate_nodes (one device):
the properties bag under construction, the eagerly built switch ports (legal
to touch only when the type pre-initialised them), the NPE and chassis pulled
from the hypervisor, the raw connections string, the deferred interface pairs,
the router id, the symbolic links and configs emitted during the loop, and the
run-global port counter. -/
structure GenSt where
  tprops : List (String × PVal)
  ports : List Port
  portsInit : Bool
  npe : Option String
  chassis : String
  connections : Option PVal
  interfaces : List (String × PVal)
  router_id : Option Nat
  links : List SymLink
  port_id : Nat
  configs : List (PVal × String)
deriving DecidableEq

/-- One iteration of the sorted-property loop of Converter.generate_nodes.
The branches are the Python elif chain in source order; keys matching no
branch are ignored.  `devType` is `devices[device]['type']` (constant during
the loop). -/
def devStep (devType : String) (node_id : Nat) (model : String) (hyps : List Hypervisor)
    (s : GenSt) (kv : String × PVal) : Option GenSt :=
  if kv.1 = "hv_id" ∧ devType = "Router" then
    match kv.2 with
    | .n i =>
      match hyps.get? i with
      | none => none
      | some hv =>
        match hv.image with
        | none => none
        | some img =>
          let t1 := dictSet "image" (.s (basename img)) s.tprops
          let t2 := match hv.idlepc with | some v => dictSet "idlepc" (.s v) t1 | none => t1
          let t3 := match hv.ram with | some r => dictSet "ram" (.n r) t2 | none => t2
          let npe2 := match hv.npe with | some v => some v | none => s.npe
          let ch2 := match hv.chassis with | some c => c | none => s.chassis
          some { s with tprops := t3, npe := npe2, chassis := ch2 }
    | .s _ => none
  else if kv.1 = "type" ∧ kv.2 = .s "Router" then
    some { s with router_id := some node_id }
  else if kv.1 = "aux" then
    some { s with tprops := dictSet "aux" kv.2 s.tprops }
  else if kv.1 = "console" then
    some { s with tprops := dictSet "console" kv.2 s.tprops }
  else if strStartsWith kv.1 "slot" then
    if model = "c7200" then
      if kv.1 ≠ "slot0" then some { s with tprops := dictSet kv.1 kv.2 s.tprops } else some s
    else some { s with tprops := dictSet kv.1 kv.2 s.tprops }
  else if kv.1 = "connections" then
    some { s with connections := some kv.2 }
  else if interfaceMatch kv.1 then
    some { s with interfaces := s.interfaces ++ [(kv.1, kv.2)] }
  else if ethswintMatch kv.1 then
    match kv.2 with
    | .s v =>
      if s.portsInit then
        match calc_ethsw_port kv.1 v s.port_id with
        | none => none
        | some (port, dest, pid2) =>
          some { s with ports := s.ports ++ [port],
                        links := s.links ++ [calc_link node_id port.id dest],
                        port_id := pid2 }
      else none
    | .n _ => none
  else if kv.1 = "cnfg" then
    let newc := "i" ++ Nat.repr node_id ++ "_startup-config.cfg"
    some { s with tprops := dictSet "startup_config" (.s newc) s.tprops,
                  configs := s.configs ++ [(kv.2, newc)] }
  else some s

/-- The sorted-property loop of Converter.generate_nodes for one device. -/
def devLoop (devType : String) (node_id : Nat) (model : String) (hyps : List Hypervisor) :
    List (String × PVal) → GenSt → Option GenSt
  | [], s => some s
  | kv :: rest, s =>
    match devStep devType node_id model hyps s kv with
    | none => none
    | some s2 => devLoop devType node_id model hyps rest s2

/-- Slot-port loop of Converter.generate_nodes: over the sorted properties bag,
every slot-prefixed key contributes its adapter's ports; `item[4]` is the slot
character (IndexError on a shorter key). -/
def slotPortsLoop : List (String × PVal) → List Port → Nat → Option (List Port × Nat)
  | [], acc, pid => some (acc, pid)
  | kv :: rest, acc, pid =>
    if strStartsWith kv.1 "slot" then
      match kv.2 with
      | .s adapter =>
        match kv.1.data.get? 4 with
        | none => none
        | some c =>
          match calc_slot_ports adapter (String.mk [c]) pid with
          | none => none
          | some (ps, pid2) => slotPortsLoop rest (acc ++ ps) pid2
      | .n _ => none
    else slotPortsLoop rest acc pid

/-- Router-link loop of Converter.generate_nodes over the deferred interface
pairs; a non-string destination has no `split` and raises. -/
def routerLinksLoop (node_id : Nat) (ports : List Port) :
    List (String × PVal) → List SymLink → Option (List SymLink)
  | [], acc => some acc
  | kv :: rest, acc =>
    match kv.2 with
    | .s tv =>
      match calc_router_links kv.1 tv node_id ports with
      | none => none
      | some l => routerLinksLoop node_id ports rest (acc ++ [l])
    | .n _ => none

/-- Python 3 `sorted(interfaces)` over the interface dicts: with zero or one
element no comparison happens; from two elements on, comparing dicts raises
TypeError (the package declares Python 3 only). -/
def sortedInterfaces (ifs : List (String × PVal)) : Option (List (String × PVal)) :=
  match ifs with
  | [] => some []
  | [x] => some [x]
  | _ => none

/-- Cloud-connection loop of Converter.generate_nodes over the sorted
connection tokens. -/
def cloudLoop : List String → List Port → List String → Nat →
    Option (List Port × List String × Nat)
  | [], ports, nios, pid => some (ports, nios, pid)
  | tok :: rest, ports, nios, pid =>
    match calc_cloud_connection tok pid with
    | none => none
    | some (port, nio, pid2) => cloudLoop rest (ports ++ [port]) (nios ++ [nio]) pid2

/-- Loop body of Converter.generate_nodes for one classified device: build the
node record and thread the converter state.  `device` is the display name,
`props` the device's property dict (unique keys; iteration sorts them), `hyps`
the hypervisor-configuration list indexed by hv_id.  `node_id`, `x`, `y` and
`type` are read unconditionally (KeyError when absent); a Router's model (the
classifier always stores a string) drives motherboard, slot and default-adapter
ports, the c3600/3660 branch touching only the properties bag; a Cloud splits
its connections string into stub ports and nios; every other type carries just
its type tag and whatever ports the loop accumulated. -/
def generate_node (device : String) (props : List (String × PVal)) (hyps : List Hypervisor)
    (st : ConvSt) : Option (Node × ConvSt) :=
  match alookup "node_id" props, alookup "x" props, alookup "y" props,
        alookup "type" props with
  | some (.n node_id), some xv, some yv, some (.s devType) =>
    let modelO : Option String :=
      match alookup "model" props with
      | some (.s m) => some m
      | some (.n _) => none
      | none => some ""
    match modelO with
    | none => none
    | some model =>
      let s0 : GenSt :=
        { tprops := [], ports := [], portsInit := devType == "EthernetSwitch", npe := none,
          chassis := "", connections := none, interfaces := [], router_id := none,
          links := [], port_id := st.port_id, configs := [] }
      match devLoop devType node_id model hyps (sortPairs props) s0 with
      | none => none
      | some s1 =>
        if devType = "Router" then
          match calc_mb_ports model s1.chassis s1.port_id with
          | none => none
          | some (mb, pid1) =>
            match slotPortsLoop (sortPairs s1.tprops) mb pid1 with
            | none => none
            | some (ports1, pid2) =>
              let defs : Option (List Port × Nat × List (String × PVal)) :=
                if model = "c7200" ∧ s1.npe = some "npe-g2" then
                  (calc_slot_ports "C7200-IO-GE-E" "0" pid2).map
                    (fun r => (ports1 ++ r.1, r.2, s1.tprops))
                else if model = "c7200" then
                  (calc_slot_ports "C7200-IO-2FE" "0" pid2).map
                    (fun r => (ports1 ++ r.1, r.2, s1.tprops))
                else if model = "c3600" then
                  let t2 := dictSet "chassis" (.s s1.chassis) s1.tprops
                  let t3 := if s1.chassis = "3660" then dictSet "slot0" (.s "Leopard-2FE") t2
                            else t2
                  some (ports1, pid2, t3)
                else some (ports1, pid2, s1.tprops)
              match defs with
              | none => none
              | some (ports2, pid3, tprops2) =>
                match sortedInterfaces s1.interfaces with
                | none => none
                | some ifs =>
                  match routerLinksLoop node_id ports2 ifs [] with
                  | none => none
                  | some newLinks =>
                    some ({ id := node_id, name := device, typ := strUpper model,
                            description := "Router " ++ model, router_id := s1.router_id,
                            x := xv, y := yv, ports := ports2, properties := tprops2 },
                          { port_id := pid3, links := st.links ++ s1.links ++ newLinks,
                            configs := st.configs ++ s1.configs })
        else if devType = "Cloud" then
          match s1.connections with
          | some (.s conns) =>
            match cloudLoop (sortBy strLe (pySplit ' ' conns)) [] [] s1.port_id with
            | none => none
            | some (ports1, nios1, pid1) =>
              some ({ id := node_id, name := device, typ := "Cloud", description := "Cloud",
                      router_id := s1.router_id, x := xv, y := yv, ports := ports1,
                      properties := s1.tprops, nios := nios1 },
                    { port_id := pid1, links := st.links ++ s1.links,
                      configs := st.configs ++ s1.configs })
          | _ => none
        else
          some ({ id := node_id, name := device, typ := devType, description := devType,
                  router_id := s1.router_id, x := xv, y := yv, ports := s1.ports,
                  properties := s1.tprops },
                { port_id := s1.port_id, links := st.links ++ s1.links,
                  configs := st.configs ++ s1.configs })
  | _, _, _, _ => none

/-- The `int:int` key string both sides of the deduplication comparison build
for resolved ids. -/
def natKey (a b : Nat) : String := Nat.repr a ++ ":" ++ Nat.repr b

/-- Forget a link's assigned id (deduplication rewrites only this field). -/
def stripId (l : Link) : Link := { l with id := none }

/-- Forget a port's link back-reference (the only port field
add_node_connections may touch). -/
def stripPort (p : Port) : Port := { p with link_id := none }

/-- Forget every link back-reference of a node's ports. -/
def stripNode (n : Node) : Node := { n with ports := n.ports.map stripPort }

/-- The port with the given id on the node with the given id (well-defined
lookup for stating what back-annotation did). -/
def findPort (nodes : List Node) (nid pid : Nat) : Option Port :=
  match nodes.find? (fun n => n.id == nid) with
  | some n => n.ports.find? (fun p => p.id == pid)
  | none => none

/-- The fixed ordered prefix list of the Device Namer/Typer, as the spec words
it: the first entry matching the start of the key decides the device type. -/
def firstMatchingDevName (item : String) : Option String :=
  ["ROUTER", "QEMU", "VBOX", "FRSW", "ETHSW", "Hub", "ATMSW", "ATMBR", "Cloud"].find?
    (fun p => strStartsWith item p)

/-- The fixed closed set of device-type tags. -/
def deviceTypeTags : List String :=
  ["Router", "QEMU", "VBOX", "FrameRelaySwitch", "EthernetSwitch", "EthernetHub",
   "ATMSwitch", "ATMBR", "Cloud"]

/-- An id-less resolved link, for reasoning about mirrored declarations. -/
def mirrorLink (a b c d : Nat) : Link :=
  { source_node_id := a, source_port_id := b, destination_node_id := some c,
    destination_port_id := some d }

/-! Concrete inputs used by witnesses and counterexamples. -/

/-- A Cloud node whose only stub port does not match the probed NIO target. -/
def cloudA : Node :=
  { id := 1, name := "C1", typ := "Cloud", description := "Cloud", x := PVal.s "0",
    y := PVal.s "0", ports := [{ name := "eth0", id := 1, stub := true }] }

/-- A second Cloud node owning the matching stub port "udp:30000". -/
def cloudB : Node :=
  { id := 2, name := "C2", typ := "Cloud", description := "Cloud", x := PVal.s "0",
    y := PVal.s "0", ports := [{ name := "udp:30000", id := 9, stub := true }] }

/-- A lone Cloud node owning the stub port "udp:1". -/
def cloudC : Node :=
  { id := 1, name := "C1", typ := "Cloud", description := "Cloud", x := PVal.s "0",
    y := PVal.s "0", ports := [{ name := "udp:1", id := 4, stub := true }] }

/-- Router R1 with one FastEthernet port (id 1). -/
def routerR1 : Node :=
  { id := 1, name := "R1", typ := "C7200", description := "Router c7200", x := PVal.s "0",
    y := PVal.s "0",
    ports := [{ name := "FastEthernet0/0", id := 1, port_number := some 0,
                slot_number := some "0" }] }

/-- Router R2 with one FastEthernet port (id 2). -/
def routerR2 : Node :=
  { id := 2, name := "R2", typ := "C7200", description := "Router c7200", x := PVal.s "0",
    y := PVal.s "0",
    ports := [{ name := "FastEthernet0/0", id := 2, port_number := some 0,
                slot_number := some "0" }] }

/-- A switch with two numbered ports, for a link living inside one node. -/
def switchS1 : Node :=
  { id := 1, name := "S1", typ := "EthernetSwitch", description := "EthernetSwitch",
    x := PVal.s "0", y := PVal.s "0",
    ports := [{ name := "1", id := 1, port_number := some 1, typ := some "access",
                vlan := some 1 },
              { name := "2", id := 2, port_number := some 2, typ := some "access",
                vlan := some 1 }] }

/-- Device dict of a c7200 router (one slot-1 card), as process_topology
builds it. -/
def c2props : List (String × PVal) :=
  [("hv_id", PVal.n 0), ("model", PVal.s "c7200"), ("node_id", PVal.n 1),
   ("slot1", PVal.s "C7200-IO-2FE"), ("type", PVal.s "Router"), ("x", PVal.s "0.0"),
   ("y", PVal.s "0.0")]

/-- Hypervisor block carrying NPE npe-g2. -/
def c2hypsG : List Hypervisor := [{ image := some "/images/c7200.image", npe := some "npe-g2" }]

/-- Hypervisor block with no NPE. -/
def c2hypsF : List Hypervisor := [{ image := some "/images/c7200.image" }]

/-- Device dict of a c3600 router on a 3660 chassis with no explicit slot0. -/
def c6props : List (String × PVal) :=
  [("hv_id", PVal.n 0), ("model", PVal.s "c3600"), ("node_id", PVal.n 1),
   ("type", PVal.s "Router"), ("x", PVal.s "0.0"), ("y", PVal.s "0.0")]

/-- Hypervisor block of the 3660. -/
def c6hyps : List Hypervisor := [{ image := some "/images/c3660.image", chassis := some "3660" }]

/-- The node generate_node computes for the npe-g2 c7200 witness device. -/
def c2nodeG : Node :=
  { id := 1, name := "R1", typ := "C7200", description := "Router c7200",
    router_id := some 1, x := PVal.s "0.0", y := PVal.s "0.0",
    ports := [{ name := "FastEthernet1/0", id := 1, port_number := some 0,
                slot_number := some "1" },
              { name := "FastEthernet1/1", id := 2, port_number := some 1,
                slot_number := some "1" },
              { name := "GigabitEthernet0/0", id := 3, port_number := some 0,
                slot_number := some "0" }],
    properties := [("image", PVal.s "c7200.image"), ("slot1", PVal.s "C7200-IO-2FE")] }

/-! General lemmas about the helper functions. -/

theorem insertBy_perm (le : α → α → Bool) (x : α) (l : List α) :
    (insertBy le x l).Perm (x :: l) := by
  induction l with
  | nil => simp [insertBy]
  | cons y ys ih =>
    simp only [insertBy]
    split
    · exact List.Perm.refl _
    · exact ((ih.cons y).trans (List.Perm.swap x y ys))

theorem sortBy_perm (le : α → α → Bool) (l : List α) : (sortBy le l).Perm l := by
  induction l with
  | nil => simp [sortBy]
  | cons x xs ih => exact (insertBy_perm le x (sortBy le xs)).trans (ih.cons x)

theorem mem_sortBy {le : α → α → Bool} {a : α} {l : List α} : a ∈ sortBy le l ↔ a ∈ l :=
  (sortBy_perm le l).mem_iff

theorem sortPairs_perm (l : List (String × α)) : (sortPairs l).Perm l :=
  sortBy_perm _ l

theorem alookup_mem {k : String} {v : α} {l : List (String × α)}
    (h : alookup k l = some v) : (k, v) ∈ l := by
  induction l with
  | nil => simp [alookup] at h
  | cons kv rest ih =>
    rw [alookup] at h
    split at h
    · rename_i hk
      cases h
      simp [← hk]
    · simp [ih h]

theorem mem_dictSet {k : String} {v : α} {e : String × α} {l : List (String × α)}
    (h : e ∈ dictSet k v l) : e = (k, v) ∨ e ∈ l := by
  induction l with
  | nil => simpa [dictSet] using h
  | cons kv rest ih =>
    rw [dictSet] at h
    split at h
    · rcases List.mem_cons.mp h with h1 | h1
      · exact Or.inl h1
      · exact Or.inr (List.mem_cons_of_mem _ h1)
    · rcases List.mem_cons.mp h with h1 | h1
      · exact Or.inr (h1 ▸ List.mem_cons_self _ _)
      · rcases ih h1 with h2 | h2
        · exact Or.inl h2
        · exact Or.inr (List.mem_cons_of_mem _ h2)

theorem get?_eraseIdx_of_lt {l : List α} {j i : Nat} (h : j < i) :
    (l.eraseIdx j).get? (i - 1) = l.get? i := by
  induction l generalizing j i with
  | nil => simp [List.eraseIdx]
  | cons a as ih =>
    cases j with
    | zero =>
      cases i with
      | zero => omega
      | succ i => simp [List.eraseIdx]
    | succ j =>
      cases i with
      | zero => omega
      | succ i =>
        have hji : j < i := by omega
        simp only [List.eraseIdx]
        rw [show i + 1 - 1 = (i - 1) + 1 by omega]
        simp only [List.get?]
        exact ih hji

theorem get?_eraseIdx_of_gt {l : List α} {j i : Nat} (h : i < j) :
    (l.eraseIdx j).get? i = l.get? i := by
  induction l generalizing j i with
  | nil => simp [List.eraseIdx]
  | cons a as ih =>
    cases j with
    | zero => omega
    | succ j =>
      cases i with
      | zero => simp [List.eraseIdx]
      | succ i =>
        simp only [List.eraseIdx, List.get?]
        exact ih (by omega)

theorem countP_set_congr {l : List α} {i : Nat} {a b : α} {q : α → Bool}
    (hget : l.get? i = some a) (hq : q b = q a) :
    (l.set i b).countP q = l.countP q := by
  induction l generalizing i with
  | nil => simp at hget
  | cons x xs ih =>
    cases i with
    | zero =>
      cases hget
      simp [List.countP_cons, hq]
    | succ i =>
      simp only [List.get?] at hget
      simp [List.countP_cons, ih hget]

theorem countP_eraseIdx_of_neg {l : List α} {j : Nat} {a : α} {q : α → Bool}
    (hget : l.get? j = some a) (ha : q a = false) :
    (l.eraseIdx j).countP q = l.countP q := by
  induction l generalizing j with
  | nil => simp at hget
  | cons x xs ih =>
    cases j with
    | zero =>
      cases hget
      simp [List.eraseIdx, List.countP_cons, ha]
    | succ j =>
      simp only [List.get?] at hget
      simp [List.eraseIdx, List.countP_cons, ih hget]

/-! Decimal representations: `str(n)` produces digit characters only, and is
injective, so the deduplication's string keys faithfully compare id pairs. -/

theorem digitChar_isDigit {m : Nat} (h : m < 10) : (Nat.digitChar m).isDigit = true := by
  interval_cases m <;> decide

theorem digitChar_val {m : Nat} (h : m < 10) : (Nat.digitChar m).toNat - 48 = m := by
  interval_cases m <;> decide

theorem toDigitsCore_digits (fuel : Nat) :
    ∀ (n : Nat) (ds : List Char), (∀ c ∈ ds, c.isDigit = true) →
      ∀ c ∈ Nat.toDigitsCore 10 fuel n ds, c.isDigit = true := by
  induction fuel with
  | zero => intro n ds h; simpa [Nat.toDigitsCore] using h
  | succ fuel ih =>
    intro n ds h c hc
    rw [Nat.toDigitsCore] at hc
    have hd : ∀ x ∈ Nat.digitChar (n % 10) :: ds, x.isDigit = true := by
      intro x hx
      rcases List.mem_cons.mp hx with h1 | h1
      · exact h1 ▸ digitChar_isDigit (Nat.mod_lt n (by norm_num))
      · exact h x h1
    by_cases hz : n / 10 = 0
    · rw [if_pos hz] at hc
      exact hd c hc
    · rw [if_neg hz] at hc
      exact ih (n / 10) _ hd c hc

theorem repr_data_digits (n : Nat) : ∀ c ∈ (Nat.repr n).data, c.isDigit = true := by
  have : (Nat.repr n).data = Nat.toDigitsCore 10 (n + 1) n [] := by rfl
  exact this ▸ toDigitsCore_digits (n + 1) n [] (by simp)

theorem toDigitsCore_append (fuel : Nat) :
    ∀ (n : Nat) (ds : List Char),
      Nat.toDigitsCore 10 fuel n ds = Nat.toDigitsCore 10 fuel n [] ++ ds := by
  induction fuel with
  | zero => intro n ds; simp [Nat.toDigitsCore]
  | succ fuel ih =>
    intro n ds
    rw [Nat.toDigitsCore, Nat.toDigitsCore]
    by_cases hz : n / 10 = 0
    · simp [hz]
    · rw [if_neg hz, if_neg hz, ih (n / 10) (Nat.digitChar (n % 10) :: ds),
        ih (n / 10) [Nat.digitChar (n % 10)]]
      simp

theorem toDigitsCore_fuel {f1 f2 : Nat} :
    ∀ {n : Nat}, n < f1 → n < f2 → ∀ (ds : List Char),
      Nat.toDigitsCore 10 f1 n ds = Nat.toDigitsCore 10 f2 n ds := by
  induction f1 generalizing f2 with
  | zero => intro n h1; omega
  | succ f1 ih =>
    intro n h1 h2 ds
    cases f2 with
    | zero => omega
    | succ f2 =>
      rw [Nat.toDigitsCore, Nat.toDigitsCore]
      by_cases hz : n / 10 = 0
      · simp [hz]
      · rw [if_neg hz, if_neg hz]
        have hn : 0 < n := by
          rcases Nat.eq_zero_or_pos n with h0 | h0
          · subst h0; simp at hz
          · exact h0
        have hlt : n / 10 < n := Nat.div_lt_self hn (by norm_num)
        exact ih (by omega) (by omega) _

theorem digitsVal_append (l : List Char) (c : Char) :
    digitsVal (l ++ [c]) = digitsVal l * 10 + (c.toNat - 48) := by
  simp [digitsVal, List.foldl_append]

theorem digitsVal_toDigits (n : Nat) : digitsVal (Nat.toDigits 10 n) = n := by
  induction n using Nat.strong_induction_on with
  | _ n ih =>
    rw [Nat.toDigits, Nat.toDigitsCore]
    by_cases hz : n / 10 = 0
    · rw [if_pos hz]
      have hlt : n < 10 := by omega
      have : n % 10 = n := Nat.mod_eq_of_lt hlt
      calc digitsVal [Nat.digitChar (n % 10)]
          = (Nat.digitChar (n % 10)).toNat - 48 := by simp [digitsVal]
        _ = n % 10 := digitChar_val (Nat.mod_lt n (by norm_num))
        _ = n := this
    · rw [if_neg hz]
      have hn : 0 < n := by
        rcases Nat.eq_zero_or_pos n with h0 | h0
        · subst h0; simp at hz
        · exact h0
      have hlt : n / 10 < n := Nat.div_lt_self hn (by norm_num)
      rw [toDigitsCore_append, toDigitsCore_fuel (by omega) (Nat.lt_succ_self _),
        ← Nat.toDigits, digitsVal_append, ih (n / 10) hlt,
        digitChar_val (Nat.mod_lt n (by norm_num))]
      have := Nat.div_add_mod n 10
      omega

theorem repr_inj {a b : Nat} (h : Nat.repr a = Nat.repr b) : a = b := by
  have hd : Nat.toDigits 10 a = Nat.toDigits 10 b := String.ext_iff.mp h
  calc a = digitsVal (Nat.toDigits 10 a) := (digitsVal_toDigits a).symm
    _ = digitsVal (Nat.toDigits 10 b) := by rw [hd]
    _ = b := digitsVal_toDigits b

theorem append_colon_inj {xs1 ys1 xs2 ys2 : List Char}
    (h1 : ∀ c ∈ xs1, c ≠ ':') (h2 : ∀ c ∈ xs2, c ≠ ':')
    (he : xs1 ++ ':' :: ys1 = xs2 ++ ':' :: ys2) : xs1 = xs2 ∧ ys1 = ys2 := by
  induction xs1 generalizing xs2 with
  | nil =>
    cases xs2 with
    | nil => simpa using he
    | cons b bs =>
      exfalso
      simp only [List.nil_append, List.cons_append, List.cons.injEq] at he
      exact h2 b (List.mem_cons_self _ _) he.1.symm
  | cons a as ih =>
    cases xs2 with
    | nil =>
      exfalso
      simp only [List.nil_append, List.cons_append, List.cons.injEq] at he
      exact h1 a (List.mem_cons_self _ _) he.1
    | cons b bs =>
      simp only [List.cons_append, List.cons.injEq] at he
      have := ih (fun c hc => h1 c (List.mem_cons_of_mem _ hc))
        (fun c hc => h2 c (List.mem_cons_of_mem _ hc)) he.2
      exact ⟨by rw [he.1, this.1], this.2⟩

theorem repr_no_colon (n : Nat) : ∀ c ∈ (Nat.repr n).data, c ≠ ':' := by
  intro c hc
  have := repr_data_digits n c hc
  intro h
  rw [h] at this
  simp at this

theorem natKey_inj {a b c d : Nat} : natKey a b = natKey c d ↔ a = c ∧ b = d := by
  constructor
  · intro h
    have hd : (Nat.repr a).data ++ ':' :: (Nat.repr b).data
        = (Nat.repr c).data ++ ':' :: (Nat.repr d).data := by
      have := String.ext_iff.mp h
      simpa [natKey, String.data_append] using this
    have := append_colon_inj (repr_no_colon a) (repr_no_colon c) hd
    exact ⟨repr_inj (String.ext_iff.mpr this.1), repr_inj (String.ext_iff.mpr this.2)⟩
  · rintro ⟨rfl, rfl⟩
    rfl

theorem none_dest_ne_natKey {dp : Option Nat} (a b : Nat) :
    optRepr none ++ ":" ++ optRepr dp ≠ natKey a b := by
  intro h
  have hd : ('N' :: 'o' :: 'n' :: 'e' :: []) ++ ':' :: (optRepr dp).data
      = (Nat.repr a).data ++ ':' :: (Nat.repr b).data := by
    have := String.ext_iff.mp h
    simpa [optRepr, natKey, String.data_append] using this
  have hne : ∀ c ∈ ('N' :: 'o' :: 'n' :: 'e' :: []), c ≠ ':' := by decide
  have := (append_colon_inj hne (repr_no_colon a) hd).1
  have hN : 'N' ∈ (Nat.repr a).data := by rw [← this]; simp
  have := repr_data_digits a 'N' hN
  simp at this

theorem some_none_dest_ne_natKey (x a b : Nat) :
    optRepr (some x) ++ ":" ++ optRepr none ≠ natKey a b := by
  intro h
  have hd : (Nat.repr x).data ++ ':' :: ('N' :: 'o' :: 'n' :: 'e' :: [])
      = (Nat.repr a).data ++ ':' :: (Nat.repr b).data := by
    have := String.ext_iff.mp h
    simpa [optRepr, natKey, String.data_append] using this
  have := (append_colon_inj (repr_no_colon x) (repr_no_colon a) hd).2
  have hN : 'N' ∈ (Nat.repr b).data := by rw [← this]; simp
  have := repr_data_digits b 'N' hN
  simp at this

/-- The destination key equals a source key exactly when both destination ids
are resolved to exactly those numbers. -/
theorem dstKey_eq_natKey_iff {l : Link} {a b : Nat} :
    dstKey l = natKey a b ↔ l.destination_node_id = some a ∧ l.destination_port_id = some b := by
  cases hn : l.destination_node_id with
  | none =>
    simp only [dstKey, hn]
    constructor
    · intro h; exact absurd h (none_dest_ne_natKey a b)
    · rintro ⟨h, -⟩; cases h
  | some x =>
    cases hp : l.destination_port_id with
    | none =>
      simp only [dstKey, hn, hp]
      constructor
      · intro h; exact absurd h (some_none_dest_ne_natKey x a b)
      · rintro ⟨-, h⟩; cases h
    | some y =>
      simp only [dstKey, hn, hp]
      constructor
      · intro h
        have := natKey_inj.mp h
        simp [this.1, this.2]
      · rintro ⟨h1, h2⟩
        cases h1; cases h2; rfl

theorem srcKey_eq_natKey (l : Link) : srcKey l = natKey l.source_node_id l.source_port_id := rfl

/-! Lemmas about destination resolution and the deduplication loop. -/

/-- A fully resolved destination names an existing port of an existing node:
both branches of convert_destination_to_id only ever return ids they found by
scanning `nodes`. -/
theorem convert_destination_valid {dn dp : String} {nodes : List Node} {a b : Nat}
    (h : convert_destination_to_id dn dp nodes = (some a, some b)) :
    ∃ n ∈ nodes, n.id = a ∧ ∃ p ∈ n.ports, p.id = b := by
  rw [convert_destination_to_id] at h
  split at h
  · split at h
    · rename_i n hn
      split at h
      · rename_i p hp
        cases h
        exact ⟨n, List.mem_of_find?_eq_some hn, rfl, p, List.mem_of_find?_eq_some hp, rfl⟩
      · simp at h
    · simp at h
  · split at h
    · rename_i n hn
      split at h
      · rename_i p hp
        cases h
        exact ⟨n, List.mem_of_find?_eq_some hn, rfl, p, List.mem_of_find?_eq_some hp, rfl⟩
      · simp at h
    · simp at h

theorem findIdx?_spec {p : α → Bool} :
    ∀ {l : List α} {i j : Nat}, List.findIdx? p l i = some j →
      i ≤ j ∧ ∃ a, l.get? (j - i) = some a ∧ p a = true := by
  intro l
  induction l with
  | nil => intro i j h; simp [List.findIdx?] at h
  | cons a as ih =>
    intro i j h
    rw [List.findIdx?_cons] at h
    split at h
    · cases h
      exact ⟨Nat.le_refl _, a, by simp, by assumption⟩
    · obtain ⟨hij, b, hb, hpb⟩ := ih h
      refine ⟨by omega, b, ?_, hpb⟩
      rw [show j - i = (j - (i + 1)) + 1 by omega]
      simpa using hb

/-- Step equation of the deduplication loop: cursor past the end. -/
theorem dedupLoop_exit {fuel i k : Nat} {ls : List Link} {nodes : List Node}
    (hget : ls.get? i = none) : dedupLoop (fuel + 1) ls i k nodes = (ls, nodes) := by
  rw [dedupLoop, hget]

/-- Step equation of the deduplication loop: no destination key matches the
current source key. -/
theorem dedupLoop_noremove {fuel i k : Nat} {ls : List Link} {nodes : List Node} {link : Link}
    (hget : ls.get? i = some link)
    (hidx : ls.findIdx? (fun l2 => dstKey l2 == srcKey link) = none) :
    dedupLoop (fuel + 1) ls i k nodes =
      dedupLoop fuel (ls.set i { link with id := some k }) (i + 1) (k + 1)
        (add_node_connections { link with id := some k } nodes) := by
  rw [dedupLoop, hget]
  dsimp only
  rw [hidx]

/-- Step equation of the deduplication loop: the removal hit the current link
itself (its own destination key equals its source key). -/
theorem dedupLoop_remove_self {fuel i k : Nat} {ls : List Link} {nodes : List Node} {link : Link}
    (hget : ls.get? i = some link)
    (hidx : ls.findIdx? (fun l2 => dstKey l2 == srcKey link) = some i) :
    dedupLoop (fuel + 1) ls i k nodes =
      dedupLoop fuel (ls.eraseIdx i) (i + 1) (k + 1)
        (add_node_connections { link with id := some k } nodes) := by
  rw [dedupLoop, hget]
  dsimp only
  rw [hidx]
  dsimp only
  rw [if_pos rfl]

/-- Step equation of the deduplication loop: the removal hit another link. -/
theorem dedupLoop_remove_other {fuel i k j : Nat} {ls : List Link} {nodes : List Node}
    {link : Link} (hget : ls.get? i = some link)
    (hidx : ls.findIdx? (fun l2 => dstKey l2 == srcKey link) = some j) (hji : j ≠ i) :
    dedupLoop (fuel + 1) ls i k nodes =
      dedupLoop fuel ((ls.eraseIdx j).set (if j < i then i - 1 else i) { link with id := some k })
        (i + 1) (k + 1) (add_node_connections { link with id := some k } nodes) := by
  rw [dedupLoop, hget]
  dsimp only
  rw [hidx]
  dsimp only
  rw [if_neg hji]

/-- Every link in the deduplicated list satisfies any property of the
id-less fields that all input links satisfied: the loop only erases links,
and rewrites ids. -/
theorem dedupLoop_all {P : Link → Prop} (hid : ∀ l k, P l → P { l with id := some k }) :
    ∀ (fuel : Nat) (ls : List Link) (i k : Nat) (nodes : List Node),
      (∀ l ∈ ls, P l) → ∀ l ∈ (dedupLoop fuel ls i k nodes).1, P l := by
  intro fuel
  induction fuel with
  | zero => intro ls i k nodes h; simpa [dedupLoop] using h
  | succ fuel ih =>
    intro ls i k nodes h
    cases hget : ls.get? i with
    | none =>
      rw [dedupLoop_exit hget]
      exact h
    | some link =>
      have hlink : P link := h link (List.get?_mem hget)
      cases hidx : ls.findIdx? (fun l2 => dstKey l2 == srcKey link) with
      | none =>
        rw [dedupLoop_noremove hget hidx]
        apply ih
        intro l hl
        rcases List.mem_or_eq_of_mem_set hl with h1 | h1
        · exact h l h1
        · exact h1 ▸ hid link k hlink
      | some j =>
        by_cases hji : j = i
        · subst hji
          rw [dedupLoop_remove_self hget hidx]
          apply ih
          intro l hl
          exact h l ((List.eraseIdx_sublist ls j).mem hl)
        · rw [dedupLoop_remove_other hget hidx hji]
          apply ih
          intro l hl
          rcases List.mem_or_eq_of_mem_set hl with h1 | h1
          · exact h l ((List.eraseIdx_sublist ls j).mem h1)
          · exact h1 ▸ hid link k hlink

/-- Counting links by a property of the id-less fields that only unresolved
destinations can satisfy: such links are never erased (the erased link's
destination key is a resolved source key) and ids do not affect the count. -/
theorem dedupLoop_countP {q : Link → Bool}
    (hid : ∀ l k, q { l with id := some k } = q l)
    (hnone : ∀ l, q l = true → l.destination_node_id = none) :
    ∀ (fuel : Nat) (ls : List Link) (i k : Nat) (nodes : List Node),
      ((dedupLoop fuel ls i k nodes).1).countP q = ls.countP q := by
  intro fuel
  induction fuel with
  | zero => intro ls i k nodes; simp [dedupLoop]
  | succ fuel ih =>
    intro ls i k nodes
    cases hget : ls.get? i with
    | none => rw [dedupLoop_exit hget]
    | some link =>
      cases hidx : ls.findIdx? (fun l2 => dstKey l2 == srcKey link) with
      | none =>
        rw [dedupLoop_noremove hget hidx, ih]
        exact countP_set_congr hget (hid link k)
      | some j =>
        obtain ⟨-, er, her, hper⟩ := findIdx?_spec hidx
        rw [Nat.sub_zero] at her
        have herq : q er = false := by
          cases hq : q er with
          | false => rfl
          | true =>
            exfalso
            have hkey : dstKey er = srcKey link := by simpa using hper
            rw [srcKey_eq_natKey] at hkey
            have := (dstKey_eq_natKey_iff.mp hkey).1
            rw [hnone er hq] at this
            cases this
        by_cases hji : j = i
        · subst hji
          rw [dedupLoop_remove_self hget hidx, ih]
          exact countP_eraseIdx_of_neg her herq
        · rw [dedupLoop_remove_other hget hidx hji, ih]
          have hse : ((ls.eraseIdx j).set (if j < i then i - 1 else i)
              { link with id := some k }).countP q = (ls.eraseIdx j).countP q := by
            by_cases hlt : j < i
            · rw [if_pos hlt]
              have h2 : (ls.eraseIdx j).get? (i - 1) = some link := by
                rw [get?_eraseIdx_of_lt hlt]; exact hget
              exact countP_set_congr h2 (hid link k)
            · rw [if_neg hlt]
              have hgt : i < j := by omega
              have h2 : (ls.eraseIdx j).get? i = some link := by
                rw [get?_eraseIdx_of_gt hgt]; exact hget
              exact countP_set_congr h2 (hid link k)
          rw [hse]
          exact countP_eraseIdx_of_neg her herq

/-- findSrcPort is the first-match scan: the id of the first port with the
expanded name, or 0 when there is none. -/
theorem findSrcPort_eq (nm : String) (ps : List Port) :
    findSrcPort nm ps =
      match ps.find? (fun p => p.name == nm) with
      | some p => p.id
      | none => 0 := by
  induction ps with
  | nil => rfl
  | cons p ps ih =>
    rw [findSrcPort]
    by_cases hp : (p.name == nm) = true
    · rw [if_pos hp]
      have : List.find? (fun q => q.name == nm) (p :: ps) = some p :=
        List.find?_cons_of_pos _ hp
      rw [this]
    · rw [if_neg hp, ih]
      have : List.find? (fun q => q.name == nm) (p :: ps) = List.find? (fun q => q.name == nm) ps :=
        List.find?_cons_of_neg _ hp
      rw [this]

/-! Lemmas about port back-annotation (add_node_connections). -/

theorem annotateFirst_strip (pid : Nat) (lid : Option Nat) (ps : List Port) :
    (annotateFirst pid lid ps).map stripPort = ps.map stripPort := by
  induction ps with
  | nil => rfl
  | cons p ps ih =>
    rw [annotateFirst]
    split
    · rfl
    · simp only [List.map_cons, ih]

theorem annotateFirstOpt_strip (pid : Option Nat) (lid : Option Nat) (ps : List Port) :
    (annotateFirstOpt pid lid ps).map stripPort = ps.map stripPort := by
  induction ps with
  | nil => rfl
  | cons p ps ih =>
    rw [annotateFirstOpt]
    split
    · rfl
    · simp only [List.map_cons, ih]

/-- Back-annotation never changes anything but link back-references. -/
theorem add_node_connections_strip (link : Link) (nodes : List Node) :
    (add_node_connections link nodes).map stripNode = nodes.map stripNode := by
  rw [add_node_connections, List.map_map]
  apply List.map_congr_left
  intro n _
  simp only [Function.comp]
  split
  · simp [stripNode, annotateFirst_strip]
  · split
    · simp [stripNode, annotateFirstOpt_strip]
    · rfl

/-- First-match search by a key that is unique in the list finds exactly the
member with that key. -/
theorem find?_key_of_nodup {f : α → Nat} {l : List α} {a : α} (ha : a ∈ l)
    (hnd : (l.map f).Nodup) : l.find? (fun x => f x == f a) = some a := by
  induction l with
  | nil => cases ha
  | cons b bs ih =>
    have hnd2 : f b ∉ bs.map f ∧ (bs.map f).Nodup := by
      rw [List.map_cons, List.nodup_cons] at hnd
      exact hnd
    rcases List.mem_cons.mp ha with rfl | hmem
    · exact List.find?_cons_of_pos _ (by simp)
    · have hne : ¬(f b == f a) = true := by
        simp only [beq_iff_eq]
        intro h
        exact hnd2.1 (h ▸ List.mem_map.mpr ⟨a, hmem, rfl⟩)
      have hstep : List.find? (fun x => f x == f a) (b :: bs)
          = List.find? (fun x => f x == f a) bs := List.find?_cons_of_neg bs hne
      rw [hstep]
      exact ih hmem hnd2.2

theorem annotateFirst_find? {ps : List Port} {p : Port} (hp : p ∈ ps)
    (hnd : (ps.map Port.id).Nodup) (pid : Nat) (lid : Option Nat) :
    (annotateFirst pid lid ps).find? (fun q => q.id == p.id) =
      some (if p.id = pid then { p with link_id := lid } else p) := by
  induction ps with
  | nil => cases hp
  | cons a as ih =>
    have hnd2 : a.id ∉ as.map Port.id ∧ (as.map Port.id).Nodup := by
      rw [List.map_cons, List.nodup_cons] at hnd
      exact hnd
    rw [annotateFirst]
    rcases List.mem_cons.mp hp with rfl | hmem
    · split
      · exact List.find?_cons_of_pos _ (by simp)
      · exact List.find?_cons_of_pos _ (by simp)
    · have hane : a.id ≠ p.id := by
        intro h
        exact hnd2.1 (h ▸ List.mem_map.mpr ⟨p, hmem, rfl⟩)
      split
      · rename_i hid
        have hstep : List.find? (fun q => q.id == p.id) ({ a with link_id := lid } :: as)
            = List.find? (fun q => q.id == p.id) as :=
          List.find?_cons_of_neg as (by simpa using hane)
        rw [hstep]
        have hpne : ¬ p.id = pid := by
          intro h
          exact hane (hid.trans h.symm)
        rw [if_neg hpne]
        exact find?_key_of_nodup hmem hnd2.2
      · have hstep : List.find? (fun q => q.id == p.id) (a :: annotateFirst pid lid as)
            = List.find? (fun q => q.id == p.id) (annotateFirst pid lid as) :=
          List.find?_cons_of_neg (annotateFirst pid lid as) (by simpa using hane)
        rw [hstep]
        exact ih hmem hnd2.2

theorem annotateFirstOpt_find? {ps : List Port} {p : Port} (hp : p ∈ ps)
    (hnd : (ps.map Port.id).Nodup) (pid : Option Nat) (lid : Option Nat) :
    (annotateFirstOpt pid lid ps).find? (fun q => q.id == p.id) =
      some (if some p.id = pid then { p with link_id := lid } else p) := by
  induction ps with
  | nil => cases hp
  | cons a as ih =>
    have hnd2 : a.id ∉ as.map Port.id ∧ (as.map Port.id).Nodup := by
      rw [List.map_cons, List.nodup_cons] at hnd
      exact hnd
    rw [annotateFirstOpt]
    rcases List.mem_cons.mp hp with rfl | hmem
    · split
      · exact List.find?_cons_of_pos _ (by simp)
      · exact List.find?_cons_of_pos _ (by simp)
    · have hane : a.id ≠ p.id := by
        intro h
        exact hnd2.1 (h ▸ List.mem_map.mpr ⟨p, hmem, rfl⟩)
      split
      · rename_i hid
        have hstep : List.find? (fun q => q.id == p.id) ({ a with link_id := lid } :: as)
            = List.find? (fun q => q.id == p.id) as :=
          List.find?_cons_of_neg as (by simpa using hane)
        rw [hstep]
        have hpne : ¬ some p.id = pid := by
          intro h
          exact hane (Option.some_injective _ (hid.trans h.symm))
        rw [if_neg hpne]
        exact find?_key_of_nodup hmem hnd2.2
      · have hstep : List.find? (fun q => q.id == p.id) (a :: annotateFirstOpt pid lid as)
            = List.find? (fun q => q.id == p.id) (annotateFirstOpt pid lid as) :=
          List.find?_cons_of_neg (annotateFirstOpt pid lid as) (by simpa using hane)
        rw [hstep]
        exact ih hmem hnd2.2

/-- What back-annotation does to one well-formed node's port (unique node ids,
unique port ids): the source port of the link gets the link id; the
destination port gets it only on a node other than the source node; every
other port keeps its back-reference. -/
theorem add_node_connections_findPort {link : Link} {nodes : List Node} {n : Node} {p : Port}
    (hn : n ∈ nodes) (hp : p ∈ n.ports)
    (hnd : (nodes.map Node.id).Nodup) (hpd : (n.ports.map Port.id).Nodup) :
    findPort (add_node_connections link nodes) n.id p.id =
      some { p with link_id :=
        if n.id = link.source_node_id ∧ p.id = link.source_port_id then link.id
        else if (n.id ≠ link.source_node_id ∧ some n.id = link.destination_node_id ∧
            some p.id = link.destination_port_id) then link.id
        else p.link_id } := by
  rw [findPort, add_node_connections, List.find?_map]
  have hpred : ((fun (m : Node) => m.id == n.id) ∘ (fun (n0 : Node) =>
      if n0.id = link.source_node_id then
        { n0 with ports := annotateFirst link.source_port_id link.id n0.ports }
      else if some n0.id = link.destination_node_id then
        { n0 with ports := annotateFirstOpt link.destination_port_id link.id n0.ports }
      else n0)) = fun (m : Node) => m.id == n.id := by
    funext m
    simp only [Function.comp]
    split
    · rfl
    · split
      · rfl
      · rfl
  rw [hpred, find?_key_of_nodup hn hnd, Option.map_some']
  by_cases hsrc : n.id = link.source_node_id
  · rw [if_pos hsrc]
    dsimp only
    rw [annotateFirst_find? hp hpd]
    by_cases hpp : p.id = link.source_port_id
    · rw [if_pos hpp, if_pos ⟨hsrc, hpp⟩]
    · rw [if_neg hpp, if_neg (fun hc => hpp hc.2),
        if_neg (fun hc => hc.1 hsrc)]
  · rw [if_neg hsrc]
    by_cases hdst : some n.id = link.destination_node_id
    · rw [if_pos hdst]
      dsimp only
      rw [annotateFirstOpt_find? hp hpd]
      by_cases hpp : some p.id = link.destination_port_id
      · rw [if_pos hpp, if_neg (fun hc => hsrc hc.1), if_pos ⟨hsrc, hdst, hpp⟩]
      · rw [if_neg hpp, if_neg (fun hc => hsrc hc.1),
          if_neg (fun hc => hpp hc.2.2)]
    · rw [if_neg hdst]
      dsimp only
      rw [find?_key_of_nodup hp hpd, if_neg (fun hc => hsrc hc.1),
        if_neg (fun hc => hdst hc.2.1)]

/-! Lemmas about the node synthesizer's property loop. -/

/-- Only the hv_id branch of the property loop can change the NPE. -/
theorem devStep_npe {devType : String} {node_id : Nat} {model : String}
    {hyps : List Hypervisor} {s s2 : GenSt} {kv : String × PVal} (hk : kv.1 ≠ "hv_id")
    (h : devStep devType node_id model hyps s kv = some s2) : s2.npe = s.npe := by
  rw [devStep, if_neg (fun hc => hk hc.1)] at h
  split_ifs at h <;> (try (repeat' split at h)) <;>
    first
      | (cases h; rfl)
      | exact Option.noConfusion h

/-- Effect of the hv_id branch on the NPE: it becomes the hypervisor's NPE
when that is set, keeping the previous value otherwise. -/
theorem devStep_hvid_npe {node_id : Nat} {model : String} {hyps : List Hypervisor}
    {s s2 : GenSt} {i : Nat} {hv : Hypervisor} (hhyp : hyps.get? i = some hv)
    (h : devStep "Router" node_id model hyps s ("hv_id", PVal.n i) = some s2) :
    s2.npe = (match hv.npe with | some v => some v | none => s.npe) := by
  rw [devStep] at h
  rw [if_pos ⟨rfl, rfl⟩] at h
  dsimp only at h
  rw [hhyp] at h
  dsimp only at h
  cases himg : hv.image with
  | none => rw [himg] at h; exact Option.noConfusion h
  | some img =>
    rw [himg] at h
    dsimp only at h
    cases h
    rfl

/-- NPE preservation over a run of the loop containing no hv_id key. -/
theorem devLoop_npe_preserve {devType : String} {node_id : Nat} {model : String}
    {hyps : List Hypervisor} :
    ∀ {items : List (String × PVal)} {s s2 : GenSt},
      devLoop devType node_id model hyps items s = some s2 →
      (∀ kv ∈ items, kv.1 ≠ "hv_id") → s2.npe = s.npe := by
  intro items
  induction items with
  | nil => intro s s2 h _; rw [devLoop] at h; cases h; rfl
  | cons kv rest ih =>
    intro s s2 h hk
    rw [devLoop] at h
    cases hstep : devStep devType node_id model hyps s kv with
    | none => rw [hstep] at h; exact Option.noConfusion h
    | some s3 =>
      rw [hstep] at h
      rw [ih h (fun e he => hk e (List.mem_cons_of_mem _ he))]
      exact devStep_npe (hk kv (List.mem_cons_self _ _)) hstep

/-- Across the whole sorted-property loop of a Router device whose dict holds
exactly one hv_id entry referring to hypervisor `hv`, the final NPE is the
hypervisor's NPE (the loop starts from `none`). -/
theorem devLoop_npe {node_id : Nat} {model : String} {hyps : List Hypervisor}
    {i : Nat} {hv : Hypervisor} (hhyp : hyps.get? i = some hv) :
    ∀ {items : List (String × PVal)} {s s2 : GenSt},
      devLoop "Router" node_id model hyps items s = some s2 →
      ("hv_id", PVal.n i) ∈ items → (items.map Prod.fst).Nodup → s.npe = none →
      s2.npe = hv.npe := by
  intro items
  induction items with
  | nil => intro s s2 _ hmem; cases hmem
  | cons kv rest ih =>
    intro s s2 h hmem hnd hnpe
    have hnd2 : kv.1 ∉ rest.map Prod.fst ∧ (rest.map Prod.fst).Nodup := by
      rw [List.map_cons, List.nodup_cons] at hnd
      exact hnd
    rw [devLoop] at h
    cases hstep : devStep "Router" node_id model hyps s kv with
    | none => rw [hstep] at h; exact Option.noConfusion h
    | some s3 =>
      rw [hstep] at h
      rcases List.mem_cons.mp hmem with rfl | hmem2
      · have hrest : ∀ e ∈ rest, e.1 ≠ "hv_id" := by
          intro e he hne
          exact hnd2.1 (hne ▸ List.mem_map.mpr ⟨e, he, rfl⟩)
        rw [devLoop_npe_preserve h hrest, devStep_hvid_npe hhyp hstep, hnpe]
        cases hv.npe <;> rfl
      · have hne : kv.1 ≠ "hv_id" := by
          intro he
          exact hnd2.1 (he ▸ List.mem_map.mpr ⟨_, hmem2, rfl⟩)
        have hs3 : s3.npe = none := by rw [devStep_npe hne hstep, hnpe]
        exact ih h hmem2 hnd2.2 hs3

/-- Slot-restricted properties survive a dict assignment whose own key either
is no slot key or satisfies the property. -/
theorem forall_slot_dictSet {R : String × PVal → Prop} {k : String} {v : PVal}
    {l : List (String × PVal)}
    (hl : ∀ e ∈ l, strStartsWith e.1 "slot" = true → R e)
    (hk : strStartsWith k "slot" = true → R (k, v)) :
    ∀ e ∈ dictSet k v l, strStartsWith e.1 "slot" = true → R e := by
  intro e he hstart
  rcases mem_dictSet he with rfl | hmem
  · exact hk hstart
  · exact hl e hmem hstart

/-- One step of the property loop of a c7200 device keeps every slot-keyed
property entry either carried over or equal to the processed key/value pair
(with slot0 filtered): formally, any property `R` of slot entries holds after
the step if it held before and holds of the step's own pair whenever that
pair is a slot key other than slot0. -/
theorem devStep_slotprops {devType : String} {node_id : Nat} {model : String}
    {hyps : List Hypervisor} {s s2 : GenSt} {kv : String × PVal}
    {R : String × PVal → Prop}
    (h : devStep devType node_id model hyps s kv = some s2)
    (hmodel : model = "c7200")
    (hs : ∀ e ∈ s.tprops, strStartsWith e.1 "slot" = true → R e)
    (hkv : strStartsWith kv.1 "slot" = true → kv.1 ≠ "slot0" → R kv) :
    ∀ e ∈ s2.tprops, strStartsWith e.1 "slot" = true → R e := by
  subst hmodel
  rw [devStep] at h
  by_cases h1 : kv.1 = "hv_id" ∧ devType = "Router"
  · rw [if_pos h1] at h
    repeat' split at h
    all_goals try exact Option.noConfusion h
    all_goals
      cases h
      all_goals
        repeat
          first
            | exact hs
            | refine forall_slot_dictSet ?_ (fun hst => absurd hst (by decide))
  · rw [if_neg h1] at h
    by_cases h2 : kv.1 = "type" ∧ kv.2 = PVal.s "Router"
    · rw [if_pos h2] at h; cases h; exact hs
    · rw [if_neg h2] at h
      by_cases h3 : kv.1 = "aux"
      · rw [if_pos h3] at h
        cases h
        exact forall_slot_dictSet hs (fun hst => absurd hst (by decide))
      · rw [if_neg h3] at h
        by_cases h4 : kv.1 = "console"
        · rw [if_pos h4] at h
          cases h
          exact forall_slot_dictSet hs (fun hst => absurd hst (by decide))
        · rw [if_neg h4] at h
          by_cases h5 : strStartsWith kv.1 "slot" = true
          · rw [if_pos h5, if_pos rfl] at h
            by_cases h5b : kv.1 ≠ "slot0"
            · rw [if_pos h5b] at h
              cases h
              exact forall_slot_dictSet hs (fun hst => hkv hst h5b)
            · rw [if_neg h5b] at h
              cases h
              exact hs
          · rw [if_neg h5] at h
            by_cases h6 : kv.1 = "connections"
            · rw [if_pos h6] at h; cases h; exact hs
            · rw [if_neg h6] at h
              by_cases h7 : interfaceMatch kv.1 = true
              · rw [if_pos h7] at h; cases h; exact hs
              · rw [if_neg h7] at h
                by_cases h8 : ethswintMatch kv.1 = true
                · rw [if_pos h8] at h
                  repeat' split at h
                  all_goals try exact Option.noConfusion h
                  all_goals (cases h; exact hs)
                · rw [if_neg h8] at h
                  by_cases h9 : kv.1 = "cnfg"
                  · rw [if_pos h9] at h
                    cases h
                    exact forall_slot_dictSet hs (fun hst => absurd hst (by decide))
                  · rw [if_neg h9] at h
                    cases h
                    exact hs

/-- devStep_slotprops lifted over the whole loop. -/
theorem devLoop_slotprops {devType : String} {node_id : Nat} {model : String}
    {hyps : List Hypervisor} {R : String × PVal → Prop} (hmodel : model = "c7200") :
    ∀ {items : List (String × PVal)} {s s2 : GenSt},
      devLoop devType node_id model hyps items s = some s2 →
      (∀ e ∈ s.tprops, strStartsWith e.1 "slot" = true → R e) →
      (∀ kv ∈ items, strStartsWith kv.1 "slot" = true → kv.1 ≠ "slot0" → R kv) →
      ∀ e ∈ s2.tprops, strStartsWith e.1 "slot" = true → R e := by
  intro items
  induction items with
  | nil => intro s s2 h hs _; rw [devLoop] at h; cases h; exact hs
  | cons kv rest ih =>
    intro s s2 h hs hk
    rw [devLoop] at h
    cases hstep : devStep devType node_id model hyps s kv with
    | none => rw [hstep] at h; exact Option.noConfusion h
    | some s3 =>
      rw [hstep] at h
      exact ih h (devStep_slotprops hstep hmodel hs (hk kv (List.mem_cons_self _ _)))
        (fun e he => hk e (List.mem_cons_of_mem _ he))

/-- Every port calc_slot_ports builds carries its slot string. -/
theorem calc_slot_ports_slotnum {adapter slot : String} {pid : Nat} {r : List Port × Nat}
    (h : calc_slot_ports adapter slot pid = some r) :
    ∀ p ∈ r.1, p.slot_number = some slot := by
  rw [calc_slot_ports] at h
  split at h
  · exact Option.noConfusion h
  · split at h
    · split at h
      · exact Option.noConfusion h
      · cases h
        intro p hp
        obtain ⟨i, -, rfl⟩ := List.mem_map.mp hp
        rfl
    · cases h
      intro p hp
      cases hp

/-- Ports accumulated by the slot loop either were already in the accumulator
or belong to a slot whose character is not the digit 0. -/
theorem slotPortsLoop_mem :
    ∀ {entries : List (String × PVal)} {acc : List Port} {pid : Nat} {res : List Port × Nat},
      slotPortsLoop entries acc pid = some res →
      (∀ e ∈ entries, strStartsWith e.1 "slot" = true →
        ∃ c, c ≠ '0' ∧ e.1.data.get? 4 = some c) →
      ∀ p ∈ res.1, p ∈ acc ∨ ∃ c, c ≠ '0' ∧ p.slot_number = some (String.mk [c]) := by
  intro entries
  induction entries with
  | nil =>
    intro acc pid res h _ p hp
    rw [slotPortsLoop] at h
    cases h
    exact Or.inl hp
  | cons kv rest ih =>
    intro acc pid res h hsh p hp
    rw [slotPortsLoop] at h
    split at h
    · rename_i hk
      split at h
      · rename_i adapter
        split at h
        · exact Option.noConfusion h
        · rename_i c hc
          split at h
          · exact Option.noConfusion h
          · rename_i ps hps
            obtain ⟨c0, hc0, hc0get⟩ := hsh kv (List.mem_cons_self _ _) hk
            have hcc : c = c0 := by
              rw [hc] at hc0get
              exact Option.some_injective _ hc0get
            rcases ih h (fun e he => hsh e (List.mem_cons_of_mem _ he)) p hp with hin | hslot
            · rcases List.mem_append.mp hin with hin2 | hin2
              · exact Or.inl hin2
              · refine Or.inr ⟨c0, hc0, ?_⟩
                rw [← hcc]
                exact calc_slot_ports_slotnum hps p hin2
            · exact Or.inr hslot
      · exact Option.noConfusion h
    · exact ih h (fun e he => hsh e (List.mem_cons_of_mem _ he)) p hp

/-- The c7200 default GE I/O card: one GigabitEthernet port at slot 0, port 0. -/
theorem calc_slot_ports_ge (pid : Nat) :
    calc_slot_ports "C7200-IO-GE-E" "0" pid =
      some ([{ name := "GigabitEthernet0/0", id := pid, port_number := some 0,
               slot_number := some "0" }], pid + 1) := rfl

/-- The c7200 default FE I/O card: two FastEthernet ports at slot 0. -/
theorem calc_slot_ports_fe (pid : Nat) :
    calc_slot_ports "C7200-IO-2FE" "0" pid =
      some ([{ name := "FastEthernet0/0", id := pid, port_number := some 0,
               slot_number := some "0" },
             { name := "FastEthernet0/1", id := pid + 1, port_number := some 1,
               slot_number := some "0" }], pid + 2) := rfl

/-- A successful motherboard-port lookup for the c7200 yields no ports (its
catalogue entry has a zero port count). -/
theorem calc_mb_ports_c7200 {ch : String} {pid : Nat} {r : List Port × Nat}
    (h : calc_mb_ports "c7200" ch pid = some r) : r = ([], pid) := by
  rw [calc_mb_ports, MODEL_MATRIX] at h
  by_cases hch : ch = ""
  · rw [if_pos ⟨rfl, hch⟩] at h
    dsimp only at h
    rw [if_neg (by norm_num)] at h
    cases h
    rfl
  · rw [if_neg (fun hc => hch hc.2),
      if_neg (fun hc => absurd hc.1 (by decide))] at h
    exact Option.noConfusion h

/-! The claims. -/

/-- C9: get_instances classifies a top-level section name as a hypervisor
instance exactly when it occurs in the input, contains a colon, and its text
before the first colon passes the IP-address validator (the stdlib parser,
abstracted as the predicate `isip`); every other name is ignored. -/
theorem c9_get_instances_classification (isip : String → Bool) (config : List String)
    (item : String) :
    item ∈ get_instances isip config ↔
      item ∈ config ∧ item.data.contains ':' = true ∧ isip (ipStem item) = true := by
  rw [get_instances, List.mem_filter, mem_sortBy]
  constructor
  · rintro ⟨hmem, hcond⟩
    by_cases hc : item.data.contains ':' = true
    · rw [if_pos hc] at hcond
      exact ⟨hmem, hc, hcond⟩
    · rw [if_neg hc] at hcond
      cases hcond
  · rintro ⟨hmem, hc, hip⟩
    refine ⟨hmem, ?_⟩
    rw [if_pos hc]
    exact hip

/-- C4 counterexample: the claim says the display name is the key with
exactly the matched prefix and one separator removed, so "ROUTER ROUTER A"
should become "ROUTER A"; device_typename uses Python str.replace, removing
every occurrence of "ROUTER " and producing "A". -/
theorem c4_counterexample_replace_all :
    (device_typename "ROUTER ROUTER A").map Prod.fst = some "A" ∧ ("A" : String) ≠ "ROUTER A" := by
  decide

/-- C4 amended: for every key starting with one of the fixed ordered prefix
literals, device_typename returns the type tag of the first matching prefix
(always in the fixed closed set) and a display name equal to the key with
every occurrence of that prefix followed by a space removed (which equals
stripping prefix-plus-separator whenever the key contains that text once). -/
theorem c4_amended_prefix_classification (item p : String)
    (h : firstMatchingDevName item = some p) :
    ∃ nm dt, device_typename item = some (nm, dt) ∧
      nm = pyReplace item (p ++ " ") "" ∧ dt.fromName = p ∧ dt.typ ∈ deviceTypeTags := by
  rw [firstMatchingDevName] at h
  by_cases h1 : strStartsWith item "ROUTER" = true
  · rw [List.find?_cons_of_pos _ h1] at h
    cases h
    refine ⟨_, ⟨"ROUTER", "Router", "Router"⟩, ?_, rfl, rfl, by decide⟩
    rw [device_typename]
    rw [if_pos h1]
  · rw [List.find?_cons_of_neg _ h1] at h
    by_cases h2 : strStartsWith item "QEMU" = true
    · rw [List.find?_cons_of_pos _ h2] at h
      cases h
      refine ⟨_, ⟨"QEMU", "QEMU", "QEMU"⟩, ?_, rfl, rfl, by decide⟩
      rw [device_typename]
      rw [if_neg h1, if_pos h2]
    · rw [List.find?_cons_of_neg _ h2] at h
      by_cases h3 : strStartsWith item "VBOX" = true
      · rw [List.find?_cons_of_pos _ h3] at h
        cases h
        refine ⟨_, ⟨"VBOX", "VBOX", "VBOX"⟩, ?_, rfl, rfl, by decide⟩
        rw [device_typename]
        rw [if_neg h1, if_neg h2, if_pos h3]
      · rw [List.find?_cons_of_neg _ h3] at h
        by_cases h4 : strStartsWith item "FRSW" = true
        · rw [List.find?_cons_of_pos _ h4] at h
          cases h
          refine ⟨_, ⟨"FRSW", "Frame Relay switch", "FrameRelaySwitch"⟩, ?_, rfl, rfl, by decide⟩
          rw [device_typename]
          rw [if_neg h1, if_neg h2, if_neg h3, if_pos h4]
        · rw [List.find?_cons_of_neg _ h4] at h
          by_cases h5 : strStartsWith item "ETHSW" = true
          · rw [List.find?_cons_of_pos _ h5] at h
            cases h
            refine ⟨_, ⟨"ETHSW", "Ethernet switch", "EthernetSwitch"⟩, ?_, rfl, rfl, by decide⟩
            rw [device_typename]
            rw [if_neg h1, if_neg h2, if_neg h3, if_neg h4, if_pos h5]
          · rw [List.find?_cons_of_neg _ h5] at h
            by_cases h6 : strStartsWith item "Hub" = true
            · rw [List.find?_cons_of_pos _ h6] at h
              cases h
              refine ⟨_, ⟨"Hub", "Ethernet hub", "EthernetHub"⟩, ?_, rfl, rfl, by decide⟩
              rw [device_typename]
              rw [if_neg h1, if_neg h2, if_neg h3, if_neg h4, if_neg h5, if_pos h6]
            · rw [List.find?_cons_of_neg _ h6] at h
              by_cases h7 : strStartsWith item "ATMSW" = true
              · rw [List.find?_cons_of_pos _ h7] at h
                cases h
                refine ⟨_, ⟨"ATMSW", "ATM switch", "ATMSwitch"⟩, ?_, rfl, rfl, by decide⟩
                rw [device_typename]
                rw [if_neg h1, if_neg h2, if_neg h3, if_neg h4, if_neg h5, if_neg h6, if_pos h7]
              · rw [List.find?_cons_of_neg _ h7] at h
                by_cases h8 : strStartsWith item "ATMBR" = true
                · rw [List.find?_cons_of_pos _ h8] at h
                  cases h
                  refine ⟨_, ⟨"ATMBR", "ATMBR", "ATMBR"⟩, ?_, rfl, rfl, by decide⟩
                  rw [device_typename]
                  rw [if_neg h1, if_neg h2, if_neg h3, if_neg h4, if_neg h5, if_neg h6,
                    if_neg h7, if_pos h8]
                · rw [List.find?_cons_of_neg _ h8] at h
                  by_cases h9 : strStartsWith item "Cloud" = true
                  · rw [List.find?_cons_of_pos _ h9] at h
                    cases h
                    refine ⟨_, ⟨"Cloud", "Cloud", "Cloud"⟩, ?_, rfl, rfl, by decide⟩
                    rw [device_typename]
                    rw [if_neg h1, if_neg h2, if_neg h3, if_neg h4, if_neg h5, if_neg h6,
                      if_neg h7, if_neg h8, if_pos h9]
                  · rw [List.find?_cons_of_neg _ h9] at h
                    exact Option.noConfusion h

/-- C4 witness: the key "ETHSW SW1" matches the prefix ETHSW and maps to the
EthernetSwitch tag with display name "SW1". -/
theorem c4_amended_witness :
    firstMatchingDevName "ETHSW SW1" = some "ETHSW" ∧
      (∃ nm dt, device_typename "ETHSW SW1" = some (nm, dt) ∧
        nm = pyReplace "ETHSW SW1" ("ETHSW" ++ " ") "" ∧ dt.fromName = "ETHSW" ∧
        dt.typ ∈ deviceTypeTags) :=
  ⟨by decide, c4_amended_prefix_classification "ETHSW SW1" "ETHSW" (by decide)⟩

/-- C5 counterexample: the interface key "fa0/0" matches the interface
pattern with the short prefix "fa", whose long form is FastEthernet, and the
node owns a port named "FastEthernet0/0" with id 7; the claim says the
SymbolicLink's source port id must be 7, but calc_router_links expands only
the first character (producing "FastEtherneta0/0"), finds no port, and falls
back to 0. -/
theorem c5_counterexample_two_letter :
    interfaceMatch "fa0/0" = true ∧
    ([{ name := "FastEthernet0/0", id := 7 }] : List Port).find?
        (fun p => p.name == "FastEthernet0/0") = some { name := "FastEthernet0/0", id := 7 } ∧
    (calc_router_links "fa0/0" "R2 fa0/0" 3 [{ name := "FastEthernet0/0", id := 7 }]).map
        SymLink.source_port_id = some 0 ∧
    (0 : Nat) ≠ 7 := by
  decide

/-- C5 amended: for an interface key with first character `c` whose long name
the catalogue knows, calc_router_links succeeds (no error is raised), keeps
this node's id as source node, and the source port id is the id of the first
port whose name equals the key with every occurrence of `c` replaced by the
long name, or 0 if no port name matches. -/
theorem c5_amended_first_char_expansion (conn_from conn_to : String) (nid : Nat)
    (ports : List Port) (c : Char) (cs : List Char) (long : String)
    (hdata : conn_from.data = c :: cs)
    (hlong : PORT_TYPES (String.mk [charUpper c]) = some long) :
    ∃ l, calc_router_links conn_from conn_to nid ports = some l ∧
      l.source_node_id = nid ∧
      ((ports.find? (fun p => p.name == pyReplace conn_from (String.mk [c]) long) = none ∧
          l.source_port_id = 0) ∨
        (∃ p, ports.find? (fun p0 => p0.name == pyReplace conn_from (String.mk [c]) long)
            = some p ∧ l.source_port_id = p.id)) := by
  rw [calc_router_links, hdata]
  dsimp only
  rw [hlong]
  dsimp only
  refine ⟨_, rfl, rfl, ?_⟩
  rw [findSrcPort_eq]
  cases hf : ports.find? (fun p0 => p0.name == pyReplace conn_from (String.mk [c]) long) with
  | none => exact Or.inl ⟨rfl, rfl⟩
  | some p => exact Or.inr ⟨p, rfl, rfl⟩

/-- C5 witness: for "f0/0" against a node owning "FastEthernet0/0" with
id 7, calc_router_links succeeds and the source port id follows the
first-match rule. -/
theorem c5_amended_witness :
    ("f0/0" : String).data = 'f' :: ['0', '/', '0'] ∧
    PORT_TYPES (String.mk [charUpper 'f']) = some "FastEthernet" ∧
    (∃ l, calc_router_links "f0/0" "R2 f0/0" 3 [{ name := "FastEthernet0/0", id := 7 }]
        = some l ∧
      l.source_node_id = 3 ∧
      ((([{ name := "FastEthernet0/0", id := 7 }] : List Port).find?
          (fun p => p.name == pyReplace "f0/0" (String.mk ['f']) "FastEthernet") = none ∧
          l.source_port_id = 0) ∨
        (∃ p, ([{ name := "FastEthernet0/0", id := 7 }] : List Port).find?
            (fun p0 => p0.name == pyReplace "f0/0" (String.mk ['f']) "FastEthernet")
            = some p ∧ l.source_port_id = p.id))) :=
  ⟨by decide, by decide,
    c5_amended_first_char_expansion "f0/0" "R2 f0/0" 3
      [{ name := "FastEthernet0/0", id := 7 }] 'f' ['0', '/', '0'] "FastEthernet"
      (by decide) (by decide)⟩

/-- C7 counterexample: two Cloud nodes; the matching stub port "udp:30000"
(id 9) belongs to the second (id 2).  The claim requires the finalized link's
destination ids to be (2, 9); the search breaks after the first Cloud node and
the link is emitted with null destination ids. -/
theorem c7_counterexample_second_cloud :
    (generate_links [cloudA, cloudB] [⟨5, 5, "NIO", "udp:30000"⟩]).1.map
      (fun l => (l.destination_node_id, l.destination_port_id)) = [(none, none)] ∧
    (∃ n ∈ [cloudA, cloudB], n.typ = "Cloud" ∧ n.id = 2 ∧
      ∃ p ∈ n.ports, p.stub = true ∧ p.name = "udp:30000" ∧ p.id = 9) ∧
    ((none, none) : Option Nat × Option Nat) ≠ (some 2, some 9) := by
  decide

/-- C7 amended: for an NIO destination, only the first Cloud-typed node is
searched: when that node owns a port with the destination-port name the
resolved ids are that node's and port's; otherwise both ids are null even if
a later Cloud owns a matching stub port. -/
theorem c7_amended_first_cloud_only (nodes : List Node) (dp : String) (n : Node)
    (hfirst : nodes.find? (fun m => m.typ == "Cloud") = some n) :
    (∀ p, n.ports.find? (fun q => q.name == dp) = some p →
      convert_destination_to_id "NIO" dp nodes = (some n.id, some p.id)) ∧
    (n.ports.find? (fun q => q.name == dp) = none →
      convert_destination_to_id "NIO" dp nodes = (none, none)) := by
  constructor
  · intro p hp
    rw [convert_destination_to_id, if_neg (fun hc => hc rfl), hfirst]
    dsimp only
    rw [hp]
  · intro hp
    rw [convert_destination_to_id, if_neg (fun hc => hc rfl), hfirst]
    dsimp only
    rw [hp]

/-- C7 witness: one Cloud with stub port "udp:1" (id 4): the first-cloud
search resolves a matching NIO destination to (1, 4). -/
theorem c7_amended_witness :
    ([cloudC].find? (fun m => m.typ == "Cloud") = some cloudC) ∧
    convert_destination_to_id "NIO" "udp:1" [cloudC] = (some 1, some 4) :=
  ⟨by decide,
    (c7_amended_first_cloud_only [cloudC] "udp:1" cloudC (by decide)).1
      { name := "udp:1", id := 4, stub := true } (by decide)⟩

/-- C8: a symbolic link whose destination resolution fails is finalized with
both destination ids null and is still present in the produced link list;
generate_links is a total function, so no error is raised.  Unresolved links
are never removed by deduplication, because every removal matches a resolved
source key against a destination key, and an unresolved destination key can
never equal one (its text starts with None). -/
theorem c8_soft_failure_emits_null_link (nodes : List Node) (syms : List SymLink)
    (s : SymLink) (hmem : s ∈ syms) (hfail : resolveDest nodes s = (none, none)) :
    ∃ l ∈ (generate_links nodes syms).1,
      l.source_node_id = s.source_node_id ∧ l.source_port_id = s.source_port_id ∧
      l.destination_node_id = none ∧ l.destination_port_id = none := by
  have hq : ∀ (l : Link) (k : Nat),
      ((fun l0 => l0.source_node_id == s.source_node_id &&
        (l0.source_port_id == s.source_port_id &&
          (l0.destination_node_id == none && (l0.destination_port_id == none))))
        { l with id := some k }) =
      ((fun l0 => l0.source_node_id == s.source_node_id &&
        (l0.source_port_id == s.source_port_id &&
          (l0.destination_node_id == none && (l0.destination_port_id == none)))) l) :=
    fun l k => rfl
  have hnone : ∀ (l : Link),
      ((fun l0 => l0.source_node_id == s.source_node_id &&
        (l0.source_port_id == s.source_port_id &&
          (l0.destination_node_id == none && (l0.destination_port_id == none)))) l) = true →
      l.destination_node_id = none := by
    intro l hl
    simp only [Bool.and_eq_true, beq_iff_eq] at hl
    exact hl.2.2.1
  have hcount : 0 < ((generate_links nodes syms).1).countP
      (fun l0 => l0.source_node_id == s.source_node_id &&
        (l0.source_port_id == s.source_port_id &&
          (l0.destination_node_id == none && (l0.destination_port_id == none)))) := by
    rw [generate_links]
    rw [dedupLoop_countP hq hnone]
    apply List.countP_pos_iff.mpr
    refine ⟨resolveOne nodes s, List.mem_map.mpr ⟨s, hmem, rfl⟩, ?_⟩
    simp only [Bool.and_eq_true, beq_iff_eq]
    refine ⟨rfl, rfl, ?_, ?_⟩
    · show (resolveDest nodes s).1 = none
      rw [hfail]
    · show (resolveDest nodes s).2 = none
      rw [hfail]
  obtain ⟨l, hl, hql⟩ := List.countP_pos_iff.mp hcount
  simp only [Bool.and_eq_true, beq_iff_eq] at hql
  exact ⟨l, hl, hql.1, hql.2.1, hql.2.2.1, hql.2.2.2⟩

/-- C8 witness: a symbolic link pointing at the unknown device "R9" resolves
to nothing, and generate_links still emits it with null destination ids. -/
theorem c8_soft_failure_witness :
    (⟨1, 1, "R9", "x"⟩ : SymLink) ∈ [(⟨1, 1, "R9", "x"⟩ : SymLink)] ∧
    resolveDest [routerR1] ⟨1, 1, "R9", "x"⟩ = (none, none) ∧
    (∃ l ∈ (generate_links [routerR1] [⟨1, 1, "R9", "x"⟩]).1,
      l.source_node_id = (1 : Nat) ∧ l.source_port_id = (1 : Nat) ∧
      l.destination_node_id = none ∧ l.destination_port_id = none) :=
  ⟨List.mem_singleton.mpr rfl, by decide,
    c8_soft_failure_emits_null_link [routerR1] [⟨1, 1, "R9", "x"⟩] ⟨1, 1, "R9", "x"⟩
      (List.mem_singleton.mpr rfl) (by decide)⟩

/-- C3 counterexample: two identical symbolic links towards an unknown device
"R9", with the fallback source port 0.  The finalized list keeps both: their
destination ids are null (naming no existing port), their source port 0 does
not exist on node 1, and the two distinct links carry the same unordered pair
of endpoints — all three parts of the claimed invariant fail. -/
theorem c3_counterexample_invariant_fails :
    (¬ ∀ l ∈ (generate_links [routerR1] [⟨1, 0, "R9", "x"⟩, ⟨1, 0, "R9", "x"⟩]).1,
      (∃ n ∈ [routerR1], n.id = l.source_node_id ∧
        ∃ p ∈ n.ports, p.id = l.source_port_id) ∧
      (∃ n ∈ [routerR1], some n.id = l.destination_node_id ∧
        ∃ p ∈ n.ports, some p.id = l.destination_port_id)) ∧
    (∃ l1 ∈ (generate_links [routerR1] [⟨1, 0, "R9", "x"⟩, ⟨1, 0, "R9", "x"⟩]).1,
      ∃ l2 ∈ (generate_links [routerR1] [⟨1, 0, "R9", "x"⟩, ⟨1, 0, "R9", "x"⟩]).1,
        l1 ≠ l2 ∧ l1.source_node_id = l2.source_node_id ∧
        l1.source_port_id = l2.source_port_id ∧
        l1.destination_node_id = l2.destination_node_id ∧
        l1.destination_port_id = l2.destination_port_id) := by
  decide

/-- C3 amended: every finalized link whose destination ids are both non-null
refers to an existing port of an existing node; unresolved destinations are
emitted with null ids, and distinct links may share the same unordered
endpoint pair (only a later link whose destination key matches an earlier
link's source key is removed). -/
theorem c3_amended_resolved_destination_valid (nodes : List Node) (syms : List SymLink)
    (l : Link) (hl : l ∈ (generate_links nodes syms).1) (dn dp : Nat)
    (hdn : l.destination_node_id = some dn) (hdp : l.destination_port_id = some dp) :
    ∃ n ∈ nodes, n.id = dn ∧ ∃ p ∈ n.ports, p.id = dp := by
  have hmain : ∀ l2 ∈ (generate_links nodes syms).1,
      ∀ a b : Nat, l2.destination_node_id = some a → l2.destination_port_id = some b →
        ∃ n ∈ nodes, n.id = a ∧ ∃ p ∈ n.ports, p.id = b := by
    rw [generate_links]
    apply dedupLoop_all
    · intro l0 k hP a b h1 h2
      exact hP a b h1 h2
    · intro l0 hl0
      obtain ⟨s0, hs0, rfl⟩ := List.mem_map.mp hl0
      intro a b h1 h2
      have hpair : resolveDest nodes s0 = (some a, some b) := by
        have e1 : (resolveDest nodes s0).1 = some a := h1
        have e2 : (resolveDest nodes s0).2 = some b := h2
        rw [Prod.ext_iff]
        exact ⟨e1, e2⟩
      exact convert_destination_valid hpair
  exact hmain l hl dn dp hdn hdp

/-- C3 witness: the mirrored-router scenario resolves, and the surviving
link's destination (node 1, port 1) is an existing port of an existing
node. -/
theorem c3_amended_witness :
    ({ source_node_id := 2, source_port_id := 2, destination_node_id := some 1,
       destination_port_id := some 1, id := some 1 } : Link)
        ∈ (generate_links [routerR1, routerR2] [⟨2, 2, "R1", "f0/0"⟩]).1 ∧
    (∃ n ∈ [routerR1, routerR2], n.id = 1 ∧ ∃ p ∈ n.ports, p.id = 1) :=
  ⟨by decide,
    c3_amended_resolved_destination_valid [routerR1, routerR2] [⟨2, 2, "R1", "f0/0"⟩]
      { source_node_id := 2, source_port_id := 2, destination_node_id := some 1,
        destination_port_id := some 1, id := some 1 }
      (by decide) 1 1 rfl rfl⟩

/-- C10 counterexample: a finalized link from port 1 to port 2 of the same
switch: the destination resolves (node 1, port 2) and the link gets id 1, yet
only the source port is back-annotated — the destination port's
link-back-reference stays empty, against the claim that both endpoint ports
receive the link id. -/
theorem c10_counterexample_same_node_link :
    (generate_links [switchS1] [⟨1, 1, "S1", "2"⟩]).1.map
        (fun l => (l.source_node_id, l.source_port_id, l.destination_node_id,
          l.destination_port_id, l.id)) = [(1, 1, some 1, some 2, some 1)] ∧
    (findPort (generate_links [switchS1] [⟨1, 1, "S1", "2"⟩]).2 1 2).map Port.link_id
      = some none ∧
    some none ≠ some (some 1) := by
  decide

/-- C10 amended: for a well-formed node set (unique node ids, unique port
ids), back-annotating a link changes nothing but link back-references, the
link's source port receives the link id, the destination port receives it
only when the destination node differs from the source node, and every other
port keeps its previous back-reference. -/
theorem c10_amended_back_annotation (link : Link) (nodes : List Node) (n : Node) (p : Port)
    (hn : n ∈ nodes) (hp : p ∈ n.ports) (hnd : (nodes.map Node.id).Nodup)
    (hpd : (n.ports.map Port.id).Nodup) :
    ((add_node_connections link nodes).map stripNode = nodes.map stripNode) ∧
    findPort (add_node_connections link nodes) n.id p.id =
      some { p with link_id :=
        if n.id = link.source_node_id ∧ p.id = link.source_port_id then link.id
        else if (n.id ≠ link.source_node_id ∧ some n.id = link.destination_node_id ∧
            some p.id = link.destination_port_id) then link.id
        else p.link_id } :=
  ⟨add_node_connections_strip link nodes, add_node_connections_findPort hn hp hnd hpd⟩

/-- C10 witness: annotating the mirrored link (source node 1 port 1,
destination node 2 port 2) with id 5 sets the destination port's
back-reference on node 2. -/
theorem c10_amended_witness :
    routerR2 ∈ [routerR1, routerR2] ∧
    ({ name := "FastEthernet0/0", id := 2, port_number := some 0, slot_number := some "0" }
        : Port) ∈ routerR2.ports ∧
    (((add_node_connections
        { source_node_id := 1, source_port_id := 1, destination_node_id := some 2,
          destination_port_id := some 2, id := some 5 } [routerR1, routerR2]).map stripNode
      = [routerR1, routerR2].map stripNode) ∧
    findPort (add_node_connections
        { source_node_id := 1, source_port_id := 1, destination_node_id := some 2,
          destination_port_id := some 2, id := some 5 } [routerR1, routerR2]) 2 2 =
      some { name := "FastEthernet0/0", id := 2, port_number := some 0,
             slot_number := some "0", link_id :=
        if (2 : Nat) = 1 ∧ (2 : Nat) = 1 then some 5
        else if ((2 : Nat) ≠ 1 ∧ (some 2 : Option Nat) = some 2 ∧
            (some 2 : Option Nat) = some 2) then some 5
        else none }) := by
  refine ⟨by decide, by decide, ?_⟩
  have h := c10_amended_back_annotation
    { source_node_id := 1, source_port_id := 1, destination_node_id := some 2,
      destination_port_id := some 2, id := some 5 } [routerR1, routerR2] routerR2
    { name := "FastEthernet0/0", id := 2, port_number := some 0, slot_number := some "0" }
    (by decide) (by decide) (by decide) (by decide)
  exact h

/-- C1: two symbolic links that are mirror images of each other (each one's
destination resolves to the other's source endpoint, with distinct
endpoints) finalize to exactly one link, which connects that pair of
endpoints. -/
theorem c1_mirrored_pair_single_link (nodes : List Node) (s1 s2 : SymLink)
    (h1 : resolveDest nodes s1 = (some s2.source_node_id, some s2.source_port_id))
    (h2 : resolveDest nodes s2 = (some s1.source_node_id, some s1.source_port_id))
    (hne : ¬(s1.source_node_id = s2.source_node_id ∧ s1.source_port_id = s2.source_port_id)) :
    (generate_links nodes [s1, s2]).1.length = 1 ∧
    ∃ l ∈ (generate_links nodes [s1, s2]).1,
      l.source_node_id = s1.source_node_id ∧ l.source_port_id = s1.source_port_id ∧
      l.destination_node_id = some s2.source_node_id ∧
      l.destination_port_id = some s2.source_port_id := by
  have hl1 : resolveOne nodes s1 =
      mirrorLink s1.source_node_id s1.source_port_id s2.source_node_id s2.source_port_id := by
    rw [resolveOne, h1]
    rfl
  have hl2 : resolveOne nodes s2 =
      mirrorLink s2.source_node_id s2.source_port_id s1.source_node_id s1.source_port_id := by
    rw [resolveOne, h2]
    rfl
  have hres : resolveLinks nodes [s1, s2] =
      [mirrorLink s1.source_node_id s1.source_port_id s2.source_node_id s2.source_port_id,
       mirrorLink s2.source_node_id s2.source_port_id s1.source_node_id s1.source_port_id] := by
    rw [resolveLinks, List.map_cons, List.map_cons, List.map_nil, hl1, hl2]
  rw [generate_links, hres]
  have hk1 : (dstKey (mirrorLink s1.source_node_id s1.source_port_id s2.source_node_id
        s2.source_port_id) ==
      srcKey (mirrorLink s1.source_node_id s1.source_port_id s2.source_node_id
        s2.source_port_id)) = false := by
    apply beq_eq_false_iff_ne.mpr
    intro hkeys
    have hkeys2 : natKey s2.source_node_id s2.source_port_id
        = natKey s1.source_node_id s1.source_port_id := hkeys
    have hpair := natKey_inj.mp hkeys2
    exact hne ⟨hpair.1.symm, hpair.2.symm⟩
  have hk2 : (dstKey (mirrorLink s2.source_node_id s2.source_port_id s1.source_node_id
        s1.source_port_id) ==
      srcKey (mirrorLink s1.source_node_id s1.source_port_id s2.source_node_id
        s2.source_port_id)) = true := by
    apply beq_iff_eq.mpr
    rfl
  have hidx : List.findIdx? (fun l2 => dstKey l2 ==
      srcKey (mirrorLink s1.source_node_id s1.source_port_id s2.source_node_id
        s2.source_port_id))
      [mirrorLink s1.source_node_id s1.source_port_id s2.source_node_id s2.source_port_id,
       mirrorLink s2.source_node_id s2.source_port_id s1.source_node_id s1.source_port_id]
      = some 1 := by
    simp [List.findIdx?_cons, hk1, hk2]
  rw [show ([mirrorLink s1.source_node_id s1.source_port_id s2.source_node_id
      s2.source_port_id,
    mirrorLink s2.source_node_id s2.source_port_id s1.source_node_id s1.source_port_id] :
      List Link).length = 2 from rfl]
  have hget1 : ([mirrorLink s1.source_node_id s1.source_port_id s2.source_node_id
      s2.source_port_id,
      mirrorLink s2.source_node_id s2.source_port_id s1.source_node_id s1.source_port_id] :
      List Link).get? 0 = some (mirrorLink s1.source_node_id s1.source_port_id
        s2.source_node_id s2.source_port_id) := rfl
  rw [dedupLoop_remove_other hget1 hidx (by omega)]
  have hlist : ((([mirrorLink s1.source_node_id s1.source_port_id s2.source_node_id
      s2.source_port_id,
      mirrorLink s2.source_node_id s2.source_port_id s1.source_node_id s1.source_port_id] :
      List Link).eraseIdx 1).set (if (1 : Nat) < 0 then 0 - 1 else 0)
      { mirrorLink s1.source_node_id s1.source_port_id s2.source_node_id s2.source_port_id
        with id := some 1 }) =
      [{ mirrorLink s1.source_node_id s1.source_port_id s2.source_node_id s2.source_port_id
        with id := some 1 }] := rfl
  rw [hlist]
  have hget2 : ([{ mirrorLink s1.source_node_id s1.source_port_id s2.source_node_id
      s2.source_port_id with id := some 1 }] : List Link).get? 1 = none := rfl
  rw [dedupLoop_exit hget2]
  exact ⟨rfl, _, List.mem_singleton.mpr rfl, rfl, rfl, rfl, rfl⟩

/-- C1 witness: scenario 2 of the spec — routers R1 and R2 each declare the
same cable from their own side, and the finalized list holds exactly one
link, from R1 port 1 to R2 port 2. -/
theorem c1_mirrored_pair_witness :
    resolveDest [routerR1, routerR2] ⟨1, 1, "R2", "f0/0"⟩ = (some 2, some 2) ∧
    resolveDest [routerR1, routerR2] ⟨2, 2, "R1", "f0/0"⟩ = (some 1, some 1) ∧
    ¬((1 : Nat) = 2 ∧ (1 : Nat) = 2) ∧
    ((generate_links [routerR1, routerR2] [⟨1, 1, "R2", "f0/0"⟩, ⟨2, 2, "R1", "f0/0"⟩]).1.length
        = 1 ∧
      ∃ l ∈ (generate_links [routerR1, routerR2]
          [⟨1, 1, "R2", "f0/0"⟩, ⟨2, 2, "R1", "f0/0"⟩]).1,
        l.source_node_id = 1 ∧ l.source_port_id = 1 ∧
        l.destination_node_id = some 2 ∧ l.destination_port_id = some 2) :=
  ⟨by decide, by decide, by decide,
    c1_mirrored_pair_single_link [routerR1, routerR2] ⟨1, 1, "R2", "f0/0"⟩
      ⟨2, 2, "R1", "f0/0"⟩ (by decide) (by decide) (by decide)⟩

/-- C6: the claimed before-the-loop injection does not happen.  On a c3600
router whose hypervisor declares chassis 3660 and whose device dict has no
explicit slot0 property, generate_node succeeds and the synthesized slot0
value Leopard-2FE does land in the properties bag — but only after the
slot-port loop has run, so the computed port list is empty and holds none of
the Leopard-2FE adapter ports the claim requires. -/
theorem c6_leopard_injected_after_port_loop :
    (generate_node "R1" c6props c6hyps ⟨1, [], []⟩).map
        (fun r => (r.1.ports, alookup "slot0" r.1.properties,
          alookup "chassis" r.1.properties))
      = some ([], some (PVal.s "Leopard-2FE"), some (PVal.s "3660")) := by decide

/-- C2: on a successful generate_node run for a Router device of model c7200
(with well-formed slot keys and unique property keys), the node's port list
holds the slot-0 position-0 GigabitEthernet default port and no slot-0
position-0 FastEthernet port exactly when the device's hypervisor carries NPE
npe-g2, and the slot-0 position-0 FastEthernet default port and no slot-0
position-0 GigabitEthernet port otherwise: the two families are mutually
exclusive. -/
theorem c2_c7200_default_adapter_families
    (device : String) (props : List (String × PVal)) (hyps : List Hypervisor)
    (st st2 : ConvSt) (node : Node) (i : Nat) (hv : Hypervisor)
    (hrun : generate_node device props hyps st = some (node, st2))
    (hmodel : alookup "model" props = some (PVal.s "c7200"))
    (htype : alookup "type" props = some (PVal.s "Router"))
    (hhv : alookup "hv_id" props = some (PVal.n i))
    (hhyp : hyps.get? i = some hv)
    (hnodup : (props.map Prod.fst).Nodup)
    (hslots : ∀ kv ∈ props, strStartsWith kv.1 "slot" = true →
      ∃ c, kv.1 = "slot" ++ String.mk [c]) :
    (hv.npe = some "npe-g2" →
      (∃ p ∈ node.ports, p.name = "GigabitEthernet0/0" ∧ p.slot_number = some "0" ∧
        p.port_number = some 0) ∧
      ¬ ∃ p ∈ node.ports, p.name = "FastEthernet0/0" ∧ p.slot_number = some "0" ∧
        p.port_number = some 0) ∧
    (hv.npe ≠ some "npe-g2" →
      (∃ p ∈ node.ports, p.name = "FastEthernet0/0" ∧ p.slot_number = some "0" ∧
        p.port_number = some 0) ∧
      ¬ ∃ p ∈ node.ports, p.name = "GigabitEthernet0/0" ∧ p.slot_number = some "0" ∧
        p.port_number = some 0) := by
  rw [generate_node] at hrun
  split at hrun
  case _ node_id xv yv devType hnid hx hy htypeq =>
    have hdt : devType = "Router" := by
      have h := htype.symm.trans htypeq
      injection h with h1
      injection h1 with h2
      exact h2.symm
    subst hdt
    rw [hmodel] at hrun
    dsimp only at hrun
    split at hrun
    · exact Option.noConfusion hrun
    case _ s1 hdl =>
      rw [if_pos rfl] at hrun
      split at hrun
      · exact Option.noConfusion hrun
      case _ mb pid1 hmb =>
        have hmbr := calc_mb_ports_c7200 hmb
        rw [Prod.mk.injEq] at hmbr
        obtain ⟨hmb0, hpid1⟩ := hmbr
        subst hmb0
        split at hrun
        · exact Option.noConfusion hrun
        case _ ports1 pid2 hsl =>
          have hmem : ("hv_id", PVal.n i) ∈ sortPairs props :=
            mem_sortBy.mpr (alookup_mem hhv)
          have hnd2 : ((sortPairs props).map Prod.fst).Nodup :=
            (((sortPairs_perm props).map Prod.fst).nodup_iff).mpr hnodup
          have hs1npe : s1.npe = hv.npe := devLoop_npe hhyp hdl hmem hnd2 rfl
          have hall := @devLoop_slotprops "Router" node_id "c7200" hyps
              (fun e => ∃ c, c ≠ '0' ∧ e.1.data.get? 4 = some c) rfl
              (sortPairs props) _ s1 hdl
              (by intro e he2 hst2; exact absurd he2 (List.not_mem_nil e))
              (by intro kv hkv hst hne
                  obtain ⟨c, hc⟩ := hslots kv (mem_sortBy.mp hkv) hst
                  refine ⟨c, fun h0 => hne (by rw [hc, h0]; decide), ?_⟩
                  rw [hc]
                  have hd : ("slot" ++ String.mk [c]).data =
                      's' :: 'l' :: 'o' :: 't' :: [c] := rfl
                  rw [hd]
                  rfl)
          have hslotR : ∀ e ∈ sortPairs s1.tprops, strStartsWith e.1 "slot" = true →
              ∃ c, c ≠ '0' ∧ e.1.data.get? 4 = some c := by
            intro e he hst
            exact hall e (mem_sortBy.mp he) hst
          have hp1slot : ∀ p ∈ ports1, p.slot_number ≠ some "0" := by
            intro p hp hcontra
            rcases slotPortsLoop_mem hsl hslotR p hp with hacc | ⟨c, hc0, hcslot⟩
            · exact absurd hacc (List.not_mem_nil p)
            · rw [hcontra] at hcslot
              injection hcslot with hs0
              have h2 : ('0' : Char) :: [] = [c] := congrArg String.data hs0
              injection h2 with h3 h4
              exact hc0 h3.symm
          by_cases hg : hv.npe = some "npe-g2"
          · rw [if_pos ⟨rfl, hs1npe.trans hg⟩] at hrun
            rw [calc_slot_ports_ge] at hrun
            dsimp only [Option.map] at hrun
            split at hrun
            · exact Option.noConfusion hrun
            case _ ifs hsi =>
              split at hrun
              · exact Option.noConfusion hrun
              case _ newLinks hrl =>
                injection hrun with hpair
                rw [Prod.mk.injEq] at hpair
                obtain ⟨hnode, hst2⟩ := hpair
                have hports : node.ports = ports1 ++
                    [{ name := "GigabitEthernet0/0", id := pid2, port_number := some 0,
                       slot_number := some "0" }] := by rw [← hnode]
                constructor
                · intro hg2
                  constructor
                  · refine ⟨{ name := "GigabitEthernet0/0", id := pid2,
                              port_number := some 0, slot_number := some "0" },
                      ?_, rfl, rfl, rfl⟩
                    rw [hports]
                    exact List.mem_append_right _ (List.mem_singleton.mpr rfl)
                  · rintro ⟨p, hp, hname, hslot, hpn⟩
                    rw [hports] at hp
                    rcases List.mem_append.mp hp with h1 | h2
                    · exact hp1slot p h1 hslot
                    · rw [List.mem_singleton] at h2
                      rw [h2] at hname
                      exact absurd
                        (show ("GigabitEthernet0/0" : String) = "FastEthernet0/0" from hname)
                        (by decide)
                · intro hne
                  exact absurd hg hne
          · rw [if_neg (fun hc => hg (hs1npe.symm.trans hc.2))] at hrun
            rw [if_pos rfl] at hrun
            rw [calc_slot_ports_fe] at hrun
            dsimp only [Option.map] at hrun
            split at hrun
            · exact Option.noConfusion hrun
            case _ ifs hsi =>
              split at hrun
              · exact Option.noConfusion hrun
              case _ newLinks hrl =>
                injection hrun with hpair
                rw [Prod.mk.injEq] at hpair
                obtain ⟨hnode, hst2⟩ := hpair
                have hports : node.ports = ports1 ++
                    [{ name := "FastEthernet0/0", id := pid2, port_number := some 0,
                       slot_number := some "0" },
                     { name := "FastEthernet0/1", id := pid2 + 1, port_number := some 1,
                       slot_number := some "0" }] := by rw [← hnode]
                constructor
                · intro hg2
                  exact absurd hg2 hg
                · intro hne
                  constructor
                  · refine ⟨{ name := "FastEthernet0/0", id := pid2,
                              port_number := some 0, slot_number := some "0" },
                      ?_, rfl, rfl, rfl⟩
                    rw [hports]
                    exact List.mem_append_right _ (List.mem_cons_self _ _)
                  · rintro ⟨p, hp, hname, hslot, hpn⟩
                    rw [hports] at hp
                    rcases List.mem_append.mp hp with h1 | h2
                    · exact hp1slot p h1 hslot
                    · rw [List.mem_cons] at h2
                      rcases h2 with h2 | h2
                      · rw [h2] at hname
                        exact absurd
                          (show ("FastEthernet0/0" : String) = "GigabitEthernet0/0"
                            from hname) (by decide)
                      · rw [List.mem_singleton] at h2
                        rw [h2] at hname
                        exact absurd
                          (show ("FastEthernet0/1" : String) = "GigabitEthernet0/0"
                            from hname) (by decide)
  case _ =>
    exact Option.noConfusion hrun

/-- C2 witness: the c7200 router device with the npe-g2 hypervisor computes
the node c2nodeG, whose port list holds GigabitEthernet0/0 at slot 0 position
0 and no slot-0 position-0 FastEthernet0/0. -/
theorem c2_c7200_witness :
    generate_node "R1" c2props c2hypsG ⟨1, [], []⟩ = some (c2nodeG, ⟨4, [], []⟩) ∧
    ((∃ p ∈ c2nodeG.ports, p.name = "GigabitEthernet0/0" ∧ p.slot_number = some "0" ∧
        p.port_number = some 0) ∧
      ¬ ∃ p ∈ c2nodeG.ports, p.name = "FastEthernet0/0" ∧ p.slot_number = some "0" ∧
        p.port_number = some 0) :=
  ⟨by decide,
    (c2_c7200_default_adapter_families "R1" c2props c2hypsG ⟨1, [], []⟩ ⟨4, [], []⟩
        c2nodeG 0 { image := some "/images/c7200.image", npe := some "npe-g2" }
        (by decide) rfl rfl rfl rfl (by decide)
        (by intro kv hkv hst
            simp only [c2props, List.mem_cons, List.not_mem_nil, or_false] at hkv
            rcases hkv with rfl | rfl | rfl | rfl | rfl | rfl | rfl <;>
              first
                | exact absurd hst (by decide)
                | exact ⟨'1', by decide⟩)).1 rfl⟩

end Gns3
